import Mathlib

/-!
Verification of the EarthFare product-data pipeline (Henry---POC).

This file shallowly embeds the parts of the Python source that the claims
talk about:

* `app/services/dietary_detector.py` — dietary attribute and allergen
  detection (`detect_dietary_attributes`, `_ingredient_present`,
  `extract_allergens`);
* `app/services/shopify_mapper.py` — Shopify metafield serialization
  (`format_list_metafield`, `format_rich_text_metafield`);
* `app/services/csv_parser.py` — schema detection and barcode cleaning
  (`detect_has_headers`, `clean_barcode`);
* `app/services/product_enricher.py` — the enrichment cascade
  (`enrich_product`, `enrich_products`).

Python strings are modelled as `List Char` internally (`String` at the
interface).  All inputs of interest are ASCII, for which the ASCII-only
Lean character operations (`Char.toLower`, `Char.isAlphanum`, …) agree
with Python's `str.lower`, `\w`, `\d` and friends.

Behaviour that cannot be embedded exactly — IEEE-754 `float()` parsing and
the results of network calls — is passed in as explicit function
parameters, and every theorem quantifies over those parameters, so each
result holds for the actual behaviour of the real program.
-/

/-! ## Python string primitives -/

/-- Python whitespace for `str.strip` / `\s` (ASCII fragment):
space, tab, newline, carriage return, vertical tab, form feed. -/
def isPySpace (c : Char) : Bool :=
  c = ' ' || c = '\t' || c = '\n' || c = '\x0d' || c = '\x0b' || c = '\x0c'

/-- `str.lower()` on a character list (ASCII fragment). -/
def pyLower (l : List Char) : List Char := l.map Char.toLower

/-- `str.strip()`: drop leading and trailing whitespace. -/
def pyStrip (l : List Char) : List Char :=
  ((l.dropWhile isPySpace).reverse.dropWhile isPySpace).reverse

/-- Does `needle` occur in `hay` starting at position `i`?
(`hay[i:i+len(needle)] == needle`). -/
def occursAt (needle hay : List Char) (i : Nat) : Bool :=
  (hay.drop i).take needle.length == needle

/-- Python's substring test `needle in hay`. -/
def containsSub (needle hay : List Char) : Bool :=
  (List.range (hay.length + 1)).any (occursAt needle hay)

/-- A regex word character `\w` (ASCII fragment): `[a-zA-Z0-9_]`. -/
def isWordChar (c : Char) : Bool := c.isAlphanum || c = '_'

/-- Is the character at position `i` of `hay` a word character?
Out-of-range counts as a non-word position. -/
def wordAt (hay : List Char) (i : Nat) : Bool :=
  match hay.get? i with
  | some c => isWordChar c
  | none => false

/-- The regex word-boundary assertion `\b` at position `i` of `hay`:
exactly one of the two adjacent positions holds a word character. -/
def boundaryAt (hay : List Char) (i : Nat) : Bool :=
  (match i with
   | 0 => false
   | j + 1 => wordAt hay j) != wordAt hay i

/-- One boundary-delimited occurrence of `needle` in `hay` at position `i`:
the occurrence together with `\b` before and after it. -/
def boundaryOccursAt (needle hay : List Char) (i : Nat) : Bool :=
  occursAt needle hay i && boundaryAt hay i && boundaryAt hay (i + needle.length)

/-- `_ingredient_present(ingredient, ingredients_text)` from
`dietary_detector.py`: `re.search(r'\b' + re.escape(ingredient) + r'\b',
ingredients_text)` — the (escaped, hence literal) ingredient occurs
somewhere in the text with word boundaries on both sides. -/
def ingredientPresent (ingredient text : List Char) : Bool :=
  (List.range (text.length + 1)).any (boundaryOccursAt ingredient text)

/-- String version of `_ingredient_present`. -/
def ingredient_present (ingredient text : String) : Bool :=
  ingredientPresent ingredient.data text.data

/-- Code-point lexicographic strict order on character lists — exactly how
Python compares `str` values (and how `sorted` orders them). -/
def lexLt : List Char → List Char → Bool
  | [], [] => false
  | [], _ :: _ => true
  | _ :: _, [] => false
  | a :: as, b :: bs =>
    if a.toNat < b.toNat then true
    else if b.toNat < a.toNat then false
    else lexLt as bs

/-- Strict order on strings induced by `lexLt` (Python `<` on `str`). -/
def strLt (a b : String) : Bool := lexLt a.data b.data

/-- Insert into a `lexLt`-sorted list of strings, keeping it sorted. -/
def insertSorted (x : String) : List String → List String
  | [] => [x]
  | y :: ys => if strLt x y then x :: y :: ys else y :: insertSorted x ys

/-- Sort a list of strings into Python's ascending `sorted` order. -/
def sortStrings (l : List String) : List String := l.foldr insertSorted []

/-- Python `sorted(set(l))` for a list of strings: the distinct elements in
ascending order. -/
def pySortedSet (l : List String) : List String := sortStrings l.dedup

/-- Python `"sep".join` specialised to a single-space separator. -/
def joinSpace : List String → String
  | [] => ""
  | [s] => s
  | s :: rest => s ++ " " ++ joinSpace rest

/-- Python `str.split(sep)` for a one-character separator: splits on every
occurrence, keeping empty segments. -/
def splitChar (sep : Char) : List Char → List (List Char)
  | [] => [[]]
  | c :: rest =>
    match splitChar sep rest with
    | [] => [[c]]
    | s :: ss => if c = sep then [] :: s :: ss else (c :: s) :: ss

/-- Python `str.title()` on a character list: a letter is uppercased when
the previous character is not a letter, lowercased otherwise. -/
def pyTitleAux : Bool → List Char → List Char
  | _, [] => []
  | prevAlpha, c :: rest =>
    if c.isAlpha then
      (if prevAlpha then c.toLower else c.toUpper) :: pyTitleAux true rest
    else
      c :: pyTitleAux false rest

/-- Python `str.title()`. -/
def pyTitle (l : List Char) : List Char := pyTitleAux false l

example : containsSub "raw".data "strawberry".data = true := by decide
example : ingredient_present "oat" "coated" = false := by decide
example : ingredient_present "oat" "oat milk" = true := by decide
example : ingredient_present "milk" "water, sugar, milk, cocoa" = true := by decide
example : pySortedSet ["b", "a", "b"] = ["a", "b"] := by decide
example : pyTitle "cereals containing gluten".data = "Cereals Containing Gluten".data := by
  decide
example : pyStrip "  a b ".data = "a b".data := by decide
example : splitChar '\n' "a\nb".data = ["a".data, "b".data] := by decide

/-! ## `dietary_detector.py` -/

/-- One entry of `DIETARY_RULES`. -/
structure DietaryRule where
  negative_ingredients : List String
  positive_markers : List String
  requires_explicit_marker : Bool
  check_certification : Bool
deriving DecidableEq

/-- The `DIETARY_RULES` table, in source (dict-insertion) order. -/
def DIETARY_RULES : List (String × DietaryRule) := [
  ("Gluten Free",
   { negative_ingredients := [
       "wheat", "barley", "rye", "oats", "spelt", "kamut", "triticale",
       "semolina", "durum", "bulgur", "couscous", "farina", "farro",
       "gluten", "seitan", "malt", "brewer's yeast"],
     positive_markers := ["gluten free", "gluten-free", "gf", "coeliac friendly", "celiac friendly"],
     requires_explicit_marker := false,
     check_certification := true }),
  ("Vegan",
   { negative_ingredients := [
       "milk", "dairy", "cream", "butter", "cheese", "whey", "casein",
       "lactose", "ghee", "yoghurt", "yogurt", "curd", "buttermilk",
       "egg", "albumen", "albumin", "mayonnaise", "meringue",
       "meat", "beef", "pork", "chicken", "fish", "seafood", "anchovy",
       "prawn", "shrimp", "crab", "lobster", "bacon", "ham", "lard",
       "tallow", "suet", "gelatin", "gelatine", "collagen",
       "honey", "beeswax", "royal jelly", "propolis",
       "shellac", "carmine", "cochineal", "isinglass",
       "lanolin", "keratin", "silk", "wool"],
     positive_markers := ["vegan", "plant-based", "plant based", "100% plant", "no animal"],
     requires_explicit_marker := false,
     check_certification := true }),
  ("Vegetarian",
   { negative_ingredients := [
       "meat", "beef", "pork", "chicken", "fish", "seafood", "anchovy",
       "prawn", "shrimp", "crab", "lobster", "bacon", "ham", "lard",
       "tallow", "suet", "gelatin", "gelatine", "collagen", "isinglass"],
     positive_markers := ["vegetarian", "veggie", "meat free", "meat-free"],
     requires_explicit_marker := false,
     check_certification := true }),
  ("Dairy Free",
   { negative_ingredients := [
       "milk", "dairy", "cream", "butter", "cheese", "whey", "casein",
       "lactose", "ghee", "yoghurt", "yogurt", "curd", "buttermilk",
       "milk powder", "skimmed milk", "whole milk", "condensed milk",
       "evaporated milk", "milk solids", "milk protein", "cream cheese",
       "sour cream", "ice cream", "fromage", "quark"],
     positive_markers := ["dairy free", "dairy-free", "lactose free", "lactose-free", "milk free"],
     requires_explicit_marker := false,
     check_certification := true }),
  ("Nut Free",
   { negative_ingredients := [
       "almond", "hazelnut", "walnut", "cashew", "pistachio", "pecan",
       "brazil nut", "macadamia", "chestnut", "pine nut", "praline",
       "marzipan", "frangipane", "nougat", "nut butter", "nut oil",
       "peanut"],
     positive_markers := ["nut free", "nut-free", "tree nut free", "peanut free"],
     requires_explicit_marker := false,
     check_certification := true }),
  ("Sugar Free",
   { negative_ingredients := [
       "sugar", "sucrose", "glucose", "fructose", "dextrose",
       "maltose", "lactose", "galactose", "trehalose",
       "brown sugar", "cane sugar", "beet sugar", "raw sugar",
       "icing sugar", "powdered sugar", "caster sugar", "demerara",
       "muscovado", "molasses", "treacle", "golden syrup",
       "maple syrup", "agave", "honey", "corn syrup",
       "high fructose corn syrup", "hfcs", "invert sugar"],
     positive_markers := ["sugar free", "sugar-free", "no added sugar", "unsweetened", "zero sugar"],
     requires_explicit_marker := false,
     check_certification := false }),
  ("Seed Oil Free",
   { negative_ingredients := [
       "sunflower oil", "rapeseed oil", "canola oil", "vegetable oil",
       "soybean oil", "soya oil", "corn oil", "cottonseed oil",
       "safflower oil", "grapeseed oil", "rice bran oil",
       "palm oil", "palm kernel oil"],
     positive_markers := ["seed oil free", "no seed oils"],
     requires_explicit_marker := false,
     check_certification := false }),
  ("Palm Oil Free",
   { negative_ingredients := [
       "palm oil", "palm kernel oil", "palm fat", "palmitate",
       "palmate", "palm stearin", "palm olein", "glyceryl stearate",
       "stearic acid", "sodium laureth sulfate", "sodium lauryl sulfate"],
     positive_markers := ["palm oil free", "palm-free", "no palm oil"],
     requires_explicit_marker := false,
     check_certification := false }),
  ("Organic",
   { negative_ingredients := [],
     positive_markers := [
       "organic", "certified organic", "soil association", "of certified organic"],
     requires_explicit_marker := true,
     check_certification := true }),
  ("Fairtrade",
   { negative_ingredients := [],
     positive_markers := ["fairtrade", "fair trade", "fairly traded"],
     requires_explicit_marker := true,
     check_certification := true }),
  ("Raw",
   { negative_ingredients := [],
     positive_markers := ["raw", "unroasted", "uncooked", "cold pressed"],
     requires_explicit_marker := true,
     check_certification := false }),
  ("Keto",
   { negative_ingredients := [
       "sugar", "flour", "wheat", "rice", "potato", "corn starch",
       "bread", "pasta", "cereal", "oats"],
     positive_markers := ["keto", "keto friendly", "keto-friendly", "low carb"],
     requires_explicit_marker := false,
     check_certification := false }),
  ("Paleo",
   { negative_ingredients := [
       "dairy", "milk", "cheese", "wheat", "grain", "legume", "bean",
       "lentil", "peanut", "soy", "corn", "potato", "sugar", "refined"],
     positive_markers := ["paleo", "paleo friendly", "paleo-friendly"],
     requires_explicit_marker := false,
     check_certification := false })]

/-- The `ALLERGEN_PATTERNS` table, in source order. -/
def ALLERGEN_PATTERNS : List (String × List String) := [
  ("celery", ["celery", "celeriac"]),
  ("cereals_containing_gluten", ["wheat", "rye", "barley", "oats", "spelt", "kamut"]),
  ("crustaceans", ["crab", "lobster", "prawn", "shrimp", "crayfish", "langoustine"]),
  ("eggs", ["egg", "albumen", "albumin"]),
  ("fish", ["fish", "cod", "salmon", "tuna", "anchovy", "sardine", "mackerel"]),
  ("lupin", ["lupin", "lupine"]),
  ("milk", ["milk", "cream", "butter", "cheese", "whey", "casein", "lactose", "yoghurt"]),
  ("molluscs", ["mussel", "oyster", "squid", "octopus", "clam", "scallop", "snail"]),
  ("mustard", ["mustard"]),
  ("nuts", ["almond", "hazelnut", "walnut", "cashew", "pistachio", "pecan", "brazil nut", "macadamia"]),
  ("peanuts", ["peanut", "groundnut", "arachis"]),
  ("sesame", ["sesame", "tahini"]),
  ("soya", ["soya", "soy", "edamame", "tofu", "tempeh"]),
  ("sulphites", ["sulphite", "sulfite", "sulphur dioxide", "e220", "e221", "e222", "e223", "e224", "e225", "e226", "e227", "e228"])]

/-- The combined search text of `detect_dietary_attributes`:
`f"{ingredients_lower} {product_lower} {badges_text}"`. -/
def dietaryAllText (ingredients product_text : String) (badges : List String) :
    List Char :=
  pyLower ingredients.data ++ ' ' :: pyLower product_text.data
    ++ ' ' :: pyLower (joinSpace badges).data

/-- `any(marker in all_text for marker in rules["positive_markers"])`. -/
def hasMarker (rule : DietaryRule) (all_text : List Char) : Bool :=
  rule.positive_markers.any fun m => containsSub m.data all_text

/-- `any(_ingredient_present(neg, ingredients_lower) for neg in
rules["negative_ingredients"])`. -/
def hasNegative (rule : DietaryRule) (ingredients_lower : List Char) : Bool :=
  rule.negative_ingredients.any fun n => ingredientPresent n.data ingredients_lower

/-- The body of the `for attr_name, rules in DIETARY_RULES.items()` loop:
the attributes appended by the rule table, in rule order. -/
def ruleAttributes (ingredients_lower all_text : List Char) : List String :=
  DIETARY_RULES.filterMap fun nr =>
    let has_marker := hasMarker nr.2 all_text
    if nr.2.requires_explicit_marker then
      if has_marker then some nr.1 else none
    else
      let has_negative := hasNegative nr.2 ingredients_lower
      if has_marker then some nr.1
      else if !has_negative && !ingredients_lower.isEmpty
              && !nr.2.negative_ingredients.isEmpty then some nr.1
      else none

/-- `detect_dietary_attributes(ingredients, product_text, badges, nutrition)`.

`parseFloat` models Python `float(s)` exactly: it returns the (exact,
rational) value of the IEEE-754 double that `float` produces, or `none`
when `float` raises — every theorem below quantifies over it.
`nutrition = []` plays the role of Python's `None` / empty dict (they are
indistinguishable to this function). -/
def detect_dietary_attributes (parseFloat : String → Option ℚ)
    (ingredients : String) (product_text : String := "")
    (badges : List String := []) (nutrition : List (String × String) := []) :
    List String :=
  let ingredients_lower := pyLower ingredients.data
  let all_text := dietaryAllText ingredients product_text badges
  let attributes := ruleAttributes ingredients_lower all_text
  let attributes :=
    if nutrition.isEmpty then attributes
    else if "Sugar Free" ∈ attributes then attributes
    else
      match parseFloat (((nutrition.lookup "sugars").getD "999")) with
      | some sugars => if sugars ≤ mkRat 1 2 then attributes ++ ["Sugar Free"] else attributes
      | none => attributes
  pySortedSet attributes

/-- `extract_allergens(ingredients)`: the display names (`key.replace("_",
" ").title()`) of the allergen patterns with a word-boundary match,
deduplicated in insertion order, then sorted. -/
def extract_allergens (ingredients : String) : List String :=
  let ingredients_lower := pyLower ingredients.data
  let found := ALLERGEN_PATTERNS.foldl
    (fun acc np =>
      if np.2.any (fun p => ingredientPresent p.data ingredients_lower) then
        let display : String :=
          ⟨pyTitle (np.1.data.map fun c => if c = '_' then ' ' else c)⟩
        if display ∈ acc then acc else acc ++ [display]
      else acc)
    []
  sortStrings found

example : detect_dietary_attributes (fun _ => none) "Water, Sugar, Milk, Cocoa" =
    ["Gluten Free", "Nut Free", "Palm Oil Free", "Seed Oil Free", "Vegetarian"] := by decide
example : "Vegan" ∉ detect_dietary_attributes (fun _ => none) "Water, Sugar, Milk, Cocoa" := by
  decide
example : "Vegan" ∈ detect_dietary_attributes (fun _ => none) "Water, Sugar, Cocoa, Salt" := by
  decide
example : "Organic" ∉ detect_dietary_attributes (fun _ => none) "Water, Sugar, Cocoa, Salt" := by
  decide
example : "Raw" ∈ detect_dietary_attributes (fun _ => none) "" "strawberry" := by decide
example : extract_allergens "Coated peanuts" = [] := by decide
example : extract_allergens "Peanut butter" = ["Milk", "Peanuts"] := by decide
example : extract_allergens "Oat milk" = ["Milk"] := by decide

/-! ## `shopify_mapper.py` -/

/-- The characters removed by `format_list_metafield`:
regex `[\x00-\x1f\x7f-\x9f]`. -/
def isListCtl (c : Char) : Bool :=
  c.toNat ≤ 0x1f || (0x7f ≤ c.toNat && c.toNat ≤ 0x9f)

/-- The characters removed by `format_rich_text_metafield`:
regex `[\x00-\x08\x0b\x0c\x0e-\x1f\x7f-\x9f]` (tab, newline and carriage
return survive). -/
def isRichCtl (c : Char) : Bool :=
  c.toNat ≤ 0x08 || c.toNat = 0x0b || c.toNat = 0x0c
    || (0x0e ≤ c.toNat && c.toNat ≤ 0x1f)
    || (0x7f ≤ c.toNat && c.toNat ≤ 0x9f)

/-- Lowercase hexadecimal digit. -/
def hexDigitChar (n : Nat) : Char :=
  if n < 10 then Char.ofNat (48 + n) else Char.ofNat (87 + n)

/-- How `json.dumps` (with `ensure_ascii=False`) renders one character
inside a JSON string. -/
def jsonEscapeChar (c : Char) : List Char :=
  if c = '"' then ['\\', '"']
  else if c = '\\' then ['\\', '\\']
  else if c = '\n' then ['\\', 'n']
  else if c = '\x0d' then ['\\', 'r']
  else if c = '\t' then ['\\', 't']
  else if c = '\x08' then ['\\', 'b']
  else if c = '\x0c' then ['\\', 'f']
  else if c.toNat < 0x20 then
    ['\\', 'u', '0', '0', hexDigitChar (c.toNat / 16), hexDigitChar (c.toNat % 16)]
  else [c]

/-- `json.dumps` of a single string (modelled from the `json` stdlib:
quote, escape each character, quote). -/
def encodeJsonString (s : List Char) : List Char :=
  '"' :: s.flatMap jsonEscapeChar ++ ['"']

/-- Join with `", "` — the default item separator of `json.dumps`. -/
def joinCommaSpace : List (List Char) → List Char
  | [] => []
  | [x] => x
  | x :: y :: rest => x ++ ',' :: ' ' :: joinCommaSpace (y :: rest)

/-- Join with `","` — the item separator of
`json.dumps(..., separators=(',', ':'))`. -/
def joinComma : List (List Char) → List Char
  | [] => []
  | [x] => x
  | x :: y :: rest => x ++ ',' :: joinComma (y :: rest)

/-- `json.dumps` of a list of strings with the default separators
`(", ", ": ")` (modelled from the `json` stdlib). -/
def dumpsStrList (items : List String) : List Char :=
  '[' :: joinCommaSpace (items.map fun s => encodeJsonString s.data) ++ [']']

/-- JSON whitespace. -/
def isJsonWs (c : Char) : Bool := c = ' ' || c = '\t' || c = '\n' || c = '\x0d'

/-- Skip JSON whitespace. -/
def skipWs (l : List Char) : List Char := l.dropWhile isJsonWs

/-- Inverse of the two-character JSON escapes (`\uXXXX` is not needed for
any output produced here and is rejected). -/
def jsonUnescape (c : Char) : Option Char :=
  if c = '"' then some '"'
  else if c = '\\' then some '\\'
  else if c = '/' then some '/'
  else if c = 'n' then some '\n'
  else if c = 't' then some '\t'
  else if c = 'r' then some '\x0d'
  else if c = 'b' then some '\x08'
  else if c = 'f' then some '\x0c'
  else none

/-- Parse the body of a JSON string (after the opening quote), returning
the decoded characters and the remainder after the closing quote. -/
def parseJStringBody : List Char → Option (List Char × List Char)
  | [] => none
  | '"' :: rest => some ([], rest)
  | '\\' :: e :: rest =>
    (jsonUnescape e).bind fun c =>
      (parseJStringBody rest).map fun p => (c :: p.1, p.2)
  | c :: rest => (parseJStringBody rest).map fun p => (c :: p.1, p.2)

/-- Parse a JSON string literal. -/
def parseJString : List Char → Option (List Char × List Char)
  | '"' :: rest => parseJStringBody rest
  | _ => none

/-- Parse `string (ws ',' ws string)* ws ']'`; the fuel only bounds the
number of array elements. -/
def parseJsonStrings : Nat → List Char → Option (List String × List Char)
  | 0, _ => none
  | fuel + 1, l =>
    match parseJString l with
    | none => none
    | some (s, r) =>
      match skipWs r with
      | ']' :: r2 => some ([⟨s⟩], r2)
      | ',' :: r2 =>
        match parseJsonStrings fuel (skipWs r2) with
        | some (ss, r3) => some ((⟨s⟩ : String) :: ss, r3)
        | none => none
      | _ => none

/-- A JSON parser for arrays of strings (the shape `format_list_metafield`
emits and `json.loads` re-reads). -/
def parseJsonStringArray (s : String) : Option (List String) :=
  match skipWs s.data with
  | '[' :: rest =>
    match skipWs rest with
    | ']' :: r2 => if (skipWs r2).isEmpty then some [] else none
    | r =>
      match parseJsonStrings (r.length + 1) r with
      | some (ss, rem) => if (skipWs rem).isEmpty then some ss else none
      | none => none
  | _ => none

/-- The cleaning step of `format_list_metafield` for one item: skip
`None`; strip; skip if blank; remove control characters; cap at 255. -/
def cleanListItem : Option String → Option String
  | none => none
  | some item =>
    let text := pyStrip item.data
    if text.isEmpty then none
    else some ⟨(text.filter fun c => !isListCtl c).take 255⟩

/-- `format_list_metafield(items)` from `shopify_mapper.py`.  The final
`json.loads` self-check of the source is modelled by
`parseJsonStringArray`: if the produced JSON does not parse back, the
function degrades to the empty string. -/
def format_list_metafield (items : List (Option String)) : String :=
  if items.isEmpty then ""
  else
    let cleaned := items.filterMap cleanListItem
    if cleaned.isEmpty then ""
    else
      let result := dumpsStrList cleaned
      if (parseJsonStringArray ⟨result⟩).isSome then ⟨result⟩ else ""

/-- `re.sub(r'<[^>]+>', ' ', text)` helper: split at the first `'>'`,
returning the characters before it and the remainder after it. -/
def splitAtGt : List Char → Option (List Char × List Char)
  | [] => none
  | '>' :: rest => some ([], rest)
  | c :: rest => (splitAtGt rest).map fun p => (c :: p.1, p.2)

/-- `re.sub(r'<[^>]+>', ' ', text)`: each non-overlapping occurrence of
`<`, one or more non-`>` characters, `>` becomes one space.  The fuel
(initially the input length, an upper bound on the scan steps) makes the
recursion structural. -/
def stripTagsF : Nat → List Char → List Char
  | 0, l => l
  | _ + 1, [] => []
  | fuel + 1, c :: rest =>
    if c = '<' then
      match splitAtGt rest with
      | some (content, after) =>
        if content.isEmpty then c :: stripTagsF fuel rest
        else ' ' :: stripTagsF fuel after
      | none => c :: stripTagsF fuel rest
    else c :: stripTagsF fuel rest

/-- `re.sub(r'<[^>]+>', ' ', text)`. -/
def stripTags (l : List Char) : List Char := stripTagsF l.length l

/-- `re.sub(r'\s+', ' ', text)`: collapse every whitespace run (the flag
records whether we are inside a run). -/
def normWsAux : Bool → List Char → List Char
  | _, [] => []
  | inRun, c :: rest =>
    if isPySpace c then
      if inRun then normWsAux true rest else ' ' :: normWsAux true rest
    else c :: normWsAux false rest

/-- `re.sub(r'\s+', ' ', text)`. -/
def normWs (l : List Char) : List Char := normWsAux false l

/-- The paragraph values collected by `format_rich_text_metafield`: strip
HTML tags, collapse whitespace, strip, drop control characters, split on
newlines, strip and drop blank paragraphs (falling back to the whole text
when every paragraph is blank), and keep the non-empty ones — the `value`
of each `{"type": "paragraph"}` child, in order.  The empty list covers
all three early `return ""` paths of the source. -/
def richTextParagraphs (text : String) : List String :=
  if text.data.isEmpty then []
  else
    let plain := pyStrip (normWs (stripTags text.data))
    if plain.isEmpty then []
    else
      let plain := plain.filter fun c => !isRichCtl c
      let paragraphs := ((splitChar '\n' plain).map pyStrip).filter fun p => !p.isEmpty
      let paragraphs := if paragraphs.isEmpty then [plain] else paragraphs
      (paragraphs.filter fun p => !p.isEmpty).map fun p => (⟨p⟩ : String)

/-- `json.dumps(..., separators=(',', ':'))` of one
`{"type": "text", "value": v}` node (modelled from the `json` stdlib). -/
def dumpTextNode (v : String) : List Char :=
  "\x7b\"type\":\"text\",\"value\":".data ++ encodeJsonString v.data ++ ['\x7d']

/-- `json.dumps(..., separators=(',', ':'))` of one paragraph node
`{"type": "paragraph", "children": [text-node]}`. -/
def dumpParagraphNode (v : String) : List Char :=
  "\x7b\"type\":\"paragraph\",\"children\":[".data ++ dumpTextNode v ++ "]\x7d".data

/-- `json.dumps(..., separators=(',', ':'))` of the root node
`{"type": "root", "children": [...]}`. -/
def dumpRichRoot (paras : List String) : List Char :=
  "\x7b\"type\":\"root\",\"children\":[".data
    ++ joinComma (paras.map dumpParagraphNode) ++ "]\x7d".data

/-- `format_rich_text_metafield(text)` from `shopify_mapper.py`.  The
source's final `json.loads` self-check re-parses its own `json.dumps`
output and tests `type == "root"` and non-empty `children` — both hold by
construction whenever `children` is non-empty, so the function returns the
serialized tree exactly when at least one paragraph survives. -/
def format_rich_text_metafield (text : String) : String :=
  let children := richTextParagraphs text
  if children.isEmpty then "" else ⟨dumpRichRoot children⟩

example : format_list_metafield [some "Vegan", some "Gluten Free"] =
    "[\"Vegan\", \"Gluten Free\"]" := by decide
example : format_list_metafield [] = "" := by decide
example : format_list_metafield [some "  "] = "" := by decide
example : format_list_metafield [some "Vegan", some "  "] = "[\"Vegan\"]" := by decide
example : parseJsonStringArray "[\"Vegan\", \"Gluten Free\"]" =
    some ["Vegan", "Gluten Free"] := by decide
example : richTextParagraphs "Line one\nLine two" = ["Line one Line two"] := by decide
example : format_rich_text_metafield "Line one\nLine two" =
    "\x7b\"type\":\"root\",\"children\":[\x7b\"type\":\"paragraph\",\"children\":[\x7b\"type\":\"text\",\"value\":\"Line one Line two\"\x7d]\x7d]\x7d" := by
  decide
example : format_rich_text_metafield "" = "" := by decide
example : format_rich_text_metafield "<p>Hi</p>" =
    "\x7b\"type\":\"root\",\"children\":[\x7b\"type\":\"paragraph\",\"children\":[\x7b\"type\":\"text\",\"value\":\"Hi\"\x7d]\x7d]\x7d" := by
  decide

/-! ## `csv_parser.py` -/

/-- The `header_keywords` list of `detect_has_headers`. -/
def header_keywords : List String :=
  ["name", "sku", "code", "description", "brand", "barcode", "ean",
   "title", "product", "category", "price", "weight", "image"]

/-- Python `str.isdigit()` (ASCII fragment): non-empty and all digits. -/
def pyIsDigit (l : List Char) : Bool := !l.isEmpty && l.all Char.isDigit

/-- The regex `^\d+\.?\d*[eE]\+?\d+$` of `detect_has_headers` (scientific
notation).  Both digit groups can only consume digits, so greedy matching
without backtracking is exact. -/
def sciNotationLike (l : List Char) : Bool :=
  let (d1, r1) := l.span Char.isDigit
  if d1.isEmpty then false
  else
    let r2 := match r1 with
      | '.' :: t => t
      | t => t
    let (_, r3) := r2.span Char.isDigit
    match r3 with
    | 'e' :: r4 | 'E' :: r4 =>
      let r5 := match r4 with
        | '+' :: t => t
        | t => t
      let (d3, r6) := r5.span Char.isDigit
      !d3.isEmpty && r6.isEmpty
    | _ => false

/-- The keyword score of `detect_has_headers`: how many cells of the
(lowercased, stripped) first row contain a header keyword as a
substring. -/
def keywordMatches (first_row : List String) : Nat :=
  (first_row.filter fun cell =>
    header_keywords.any fun kw =>
      containsSub kw.data (pyStrip (pyLower cell.data))).length

/-- The data-indicator score of `detect_has_headers`: each cell
contributes one point per satisfied test — numeric run of length ≥ 4,
scientific notation, literal yes/no. -/
def dataIndicators (first_row : List String) : Nat :=
  (first_row.map fun cell =>
    let cs := pyStrip cell.data
    (if pyIsDigit cs && decide (4 ≤ cs.length) then 1 else 0)
      + (if sciNotationLike cs then 1 else 0)
      + (if pyLower cs = "yes".data || pyLower cs = "no".data then 1 else 0)).sum

/-- `detect_has_headers(first_row)` from `csv_parser.py`. -/
def detect_has_headers (first_row : List String) : Bool :=
  if first_row.isEmpty then false
  else if 2 ≤ keywordMatches first_row then true
  else if 2 ≤ dataIndicators first_row then false
  else true

/-- The `digits_only` value computed by `clean_barcode`: strip, the two
float-normalization steps (`str(int(float(...)))`, supplied as the
parameter `intOfFloat`, which returns `none` when `float`/`int` raises —
IEEE-754 parsing is not embedded and every theorem quantifies over it),
separator removal (`' '`, `'-'`, `'.'`), digit filter
(`re.sub(r'[^\d]', '', ...)`). -/
def barcodeDigits (intOfFloat : String → Option String) (barcode : String) :
    List Char :=
  let b := pyStrip barcode.data
  let b := if containsSub ['e'] (pyLower b) then
      match intOfFloat ⟨b⟩ with
      | some s => s.data
      | none => b
    else b
  let b := if containsSub ['.'] b then
      match intOfFloat ⟨b⟩ with
      | some s => s.data
      | none => b.takeWhile (· ≠ '.')
    else b
  let b := b.filter fun c => c ≠ ' ' && c ≠ '-' && c ≠ '.'
  b.filter Char.isDigit

/-- `clean_barcode(barcode)` from `csv_parser.py`: empty in, empty out;
otherwise validate the cleaned digit string (`barcodeDigits`): length
8–14 accepted (a lost leading zero re-padded when the length is exactly
12); any other non-empty digit string returned as-is; empty digit string
rejected. -/
def clean_barcode (intOfFloat : String → Option String) (barcode : String) : String :=
  if barcode.data.isEmpty then ""
  else
    let digits_only := barcodeDigits intOfFloat barcode
    if 8 ≤ digits_only.length && digits_only.length ≤ 14 then
      if digits_only.length = 12 then ⟨'0' :: digits_only⟩ else ⟨digits_only⟩
    else if !digits_only.isEmpty then ⟨digits_only⟩
    else ""

example : detect_has_headers ["SKU", "Description", "Barcode"] = true := by decide
example : detect_has_headers
    ["37136", "5030009999999", "Ainsworths Organic Soup", "Yes", "No"] = false := by decide
example : detect_has_headers [] = false := by decide
example : sciNotationLike "5.03E+12".data = true := by decide
example : sciNotationLike "5030009999999".data = false := by decide
example : clean_barcode (fun _ => none) "12345" = "12345" := by decide
example : clean_barcode (fun _ => none) "501234567890" = "0501234567890" := by decide
example : clean_barcode (fun _ => some "5060093992311") "5060093992311.0" =
    "5060093992311" := by decide
example : clean_barcode (fun _ => none) "5060093992311.0" = "5060093992311" := by decide
example : clean_barcode (fun _ => some "5030000000000") "5.03E+12" = "5030000000000" := by
  decide
example : clean_barcode (fun _ => none) "abc" = "" := by decide

/-! ## `product_enricher.py`

The enrichment cascade.  All network effects (`fetch_nutrition_by_barcode`,
`scrape_brand_website`, `scrape_product_data`) and the pure helpers from
other modules whose outputs no claim depends on
(`parse_nutrition_from_html`, `format_nutrition_for_shopify`,
`format_off_nutrition_for_shopify`, `parse_allergen_statement`,
`parse_ingredients_list`) are supplied through an environment record, and
every theorem quantifies over it.  `Except.error` models a raised
exception, `Option` a `None` result.  The `calls` log records which
external services were consulted. -/

/-- Python falsy-default `a or b` for strings. -/
def pyOr (a b : String) : String := if a.data.isEmpty then b else a

/-- The product dict keys `enrich_product` reads and writes; a missing key
is the empty value (`product.get(k, "")` / falsy test). -/
structure Product where
  ean : String := ""
  barcode : String := ""
  variantBarcode : String := ""
  name : String := ""
  title : String := ""
  productName : String := ""
  brand : String := ""
  vendor : String := ""
  nutrition : List (String × String) := []
  nutrition_source : String := ""
  ingredients : String := ""
  ingredients_source : String := ""
  allergens : String := ""
  data_source_url : String := ""
deriving DecidableEq

/-- Result dict of `scrape_brand_website`. -/
structure BrandData where
  nutrition : List (String × String) := []
  ingredients : String := ""
  allergens : String := ""
  source_url : String := ""
deriving DecidableEq

/-- Result dict of `scrape_product_data` (`_sources` is `sources`). -/
structure ScrapedData where
  ingredients : String := ""
  nutrition_html : String := ""
  description : String := ""
  dietary_badges : List String := []
  allergen_text : String := ""
  sources : List String := []
deriving DecidableEq

/-- Result of `parse_allergen_statement`. -/
structure AllergenStatement where
  contains : List String := []
  may_contain : List String := []
deriving DecidableEq

/-- External collaborators and non-embedded helpers of `enrich_product`. -/
structure EnrichEnv where
  hasOpenFoodFacts : Bool := true
  hasBrandScraper : Bool := true
  fetch_nutrition_by_barcode : String → Except String (Option (List (String × String)))
  scrape_brand_website : String → String → String → Except String (Option BrandData)
  scrape_product_data : String → String → String → Except String ScrapedData
  parse_nutrition_from_html : String → List (String × String) := fun _ => []
  format_off_nutrition_for_shopify : List (String × String) → List String := fun _ => []
  format_nutrition_for_shopify : List (String × String) → List String := fun _ => []
  parse_allergen_statement : String → AllergenStatement := fun _ => {}
  parse_ingredients_list : String → List String := fun _ => []
  parseFloat : String → Option ℚ := fun _ => none

/-- The mutable local state of `enrich_product`: the (mutated) product
dict, the local `nutrition` / `nutrition_source` variables, and the log of
external calls made so far. -/
structure EnrichState where
  product : Product
  nutrition : List (String × String)
  nutrition_source : String
  calls : List String
deriving DecidableEq

/-- The keys dropped from an OpenFoodFacts result when building the
nutrition dict. -/
def offExcludedKeys : List String :=
  ["source", "product_name", "brands", "barcode",
   "ingredients_from_off", "allergens_from_off"]

/-- Priorities 1 and 2 of `enrich_product` (lines 111–144): keep CSV
nutrition untouched if tagged `csv`, otherwise consult OpenFoodFacts when
nutrition is empty and a barcode exists.  A lookup failure is caught; a
successful non-empty result installs the filtered nutrition dict and
opportunistically fills empty `ingredients` / `allergens`. -/
def offStage (env : EnrichEnv) (ean : String) (st : EnrichState) : EnrichState :=
  if !st.nutrition.isEmpty && st.nutrition_source = "csv" then st
  else if st.nutrition.isEmpty && !ean.data.isEmpty && env.hasOpenFoodFacts then
    let st := { st with calls := st.calls ++ ["fetch_nutrition_by_barcode"] }
    match env.fetch_nutrition_by_barcode ean with
    | .error _ => st
    | .ok none => st
    | .ok (some off_data) =>
      if off_data.isEmpty then st
      else
        let st := { st with
          nutrition := off_data.filter fun kv => decide (kv.1 ∉ offExcludedKeys),
          nutrition_source := "openfoodfacts" }
        let ing := (off_data.lookup "ingredients_from_off").getD ""
        let st := if !ing.data.isEmpty && st.product.ingredients.data.isEmpty then
            { st with product := { st.product with
              ingredients := ing, ingredients_source := "openfoodfacts" } }
          else st
        let alg := (off_data.lookup "allergens_from_off").getD ""
        if !alg.data.isEmpty && st.product.allergens.data.isEmpty then
          { st with product := { st.product with allergens := alg } }
        else st
  else st

/-- Priority 2b of `enrich_product` (lines 146–172): brand-website
scraping when nutrition or ingredients are still missing; a failure is
caught; only still-empty fields are filled. -/
def brandStage (env : EnrichEnv) (brand name ean : String) (st : EnrichState) :
    EnrichState :=
  if env.hasBrandScraper && !brand.data.isEmpty
      && (st.nutrition.isEmpty || st.product.ingredients.data.isEmpty) then
    let st := { st with calls := st.calls ++ ["scrape_brand_website"] }
    match env.scrape_brand_website brand name ean with
    | .error _ => st
    | .ok none => st
    | .ok (some bd) =>
      let st := if st.nutrition.isEmpty && !bd.nutrition.isEmpty then
          { st with nutrition := bd.nutrition, nutrition_source := "brand_website" }
        else st
      let st := if st.product.ingredients.data.isEmpty && !bd.ingredients.data.isEmpty then
          { st with product := { st.product with
            ingredients := bd.ingredients, ingredients_source := "brand_website" } }
        else st
      let st := if st.product.allergens.data.isEmpty && !bd.allergens.data.isEmpty then
          { st with product := { st.product with allergens := bd.allergens } }
        else st
      if !bd.source_url.data.isEmpty then
        { st with product := { st.product with data_source_url := bd.source_url } }
      else st
  else st

/-- Priority 3, first half (lines 179–183): parse nutrition out of the
scraped HTML if nutrition is still missing. -/
def scrapeMerge (env : EnrichEnv) (st : EnrichState) (sd : ScrapedData) : EnrichState :=
  if st.nutrition.isEmpty && !sd.nutrition_html.data.isEmpty then
    { st with nutrition := env.parse_nutrition_from_html sd.nutrition_html,
              nutrition_source := "scraped" }
  else st

/-- The enriched product dict built at lines 225–241 (`**product` plus the
explicitly assigned keys, which shadow the spread). -/
structure EnrichedProduct where
  product : Product
  ingredients : String
  ingredients_list : List String
  nutrition : List (String × String)
  nutrition_shopify : List String
  nutrition_source : String
  ingredients_source : String
  dietary : List String
  dietary_preferences : List String
  allergens : List String
  may_contain : List String
  description_scraped : String
  data_sources : List String
  data_source_url : String
  scrape_sources : List String
deriving DecidableEq

/-- Lines 185–253 of `enrich_product`: merge scraped nutrition, resolve
the ingredient text, run dietary/allergen detection and assemble the
enriched dict. -/
def finishEnrich (env : EnrichEnv) (st : EnrichState) (sd : ScrapedData) :
    EnrichedProduct :=
  let st := scrapeMerge env st sd
  let ingredients_text := pyOr sd.ingredients st.product.ingredients
  let dietary := detect_dietary_attributes env.parseFloat ingredients_text
    sd.description sd.dietary_badges st.nutrition
  let allergens := extract_allergens ingredients_text
  let stmt := env.parse_allergen_statement (pyOr sd.allergen_text ingredients_text)
  let allergens := stmt.contains.foldl
    (fun acc a => if a ∈ acc then acc else acc ++ [a]) allergens
  let nutrition_shopify :=
    if st.nutrition_source = "openfoodfacts" then
      if env.hasOpenFoodFacts then env.format_off_nutrition_for_shopify st.nutrition else []
    else env.format_nutrition_for_shopify st.nutrition
  let data_sources :=
    (if !st.nutrition_source.data.isEmpty then
      ["Nutrition: " ++ st.nutrition_source] else [])
    ++ (if !st.product.ingredients_source.data.isEmpty then
      ["Ingredients: " ++ st.product.ingredients_source] else [])
    ++ sd.sources.map ("Scraped: " ++ ·)
  { product := st.product
    ingredients := ingredients_text
    ingredients_list := env.parse_ingredients_list ingredients_text
    nutrition := st.nutrition
    nutrition_shopify := nutrition_shopify
    nutrition_source := st.nutrition_source
    ingredients_source := st.product.ingredients_source
    dietary := dietary
    dietary_preferences := dietary
    allergens := allergens
    may_contain := stmt.may_contain
    description_scraped := sd.description
    data_sources := data_sources
    data_source_url := st.product.data_source_url
    scrape_sources := sd.sources }

/-- Priority 3 and the assembly (lines 174–253): run the supplier scrape
when requested — the one external call the source does not wrap in
`try/except`, so its exception propagates (`Except.error`) — then finish
the enrichment; without scraping, `scraped_data = {}`. -/
def enrichTail (env : EnrichEnv) (ean name brand : String) (st : EnrichState)
    (scrape : Bool) : Except String EnrichedProduct × List String :=
  if scrape then
    let calls := st.calls ++ ["scrape_product_data"]
    match env.scrape_product_data ean name brand with
    | .error e => (.error e, calls)
    | .ok sd => (.ok (finishEnrich env st sd), calls)
  else
    (.ok (finishEnrich env st {}), st.calls)

/-- `enrich_product(product, scrape)` from `product_enricher.py`, staged
as in the source.  The second component is the log of external calls. -/
def enrich_product (env : EnrichEnv) (product : Product) (scrape : Bool := true) :
    Except String EnrichedProduct × List String :=
  let ean := pyOr product.ean (pyOr product.barcode product.variantBarcode)
  let name := pyOr product.name (pyOr product.title product.productName)
  let brand := pyOr product.brand product.vendor
  let st : EnrichState :=
    { product := product, nutrition := product.nutrition,
      nutrition_source := product.nutrition_source, calls := [] }
  enrichTail env ean name brand (brandStage env brand name ean (offStage env ean st)) scrape

/-- One element of the `enrich_products` result: an enriched dict, or the
original product dict annotated with `_enrichment_error` when
`enrich_product` raised. -/
inductive BatchItem where
  | ok (e : EnrichedProduct)
  | failed (p : Product) (enrichmentError : String)
deriving DecidableEq

/-- `enrich_products(products, scrape)` from `product_enricher.py`: each
product is enriched in order inside a `try/except`; a failure annotates
that product and the loop continues.  (The politeness delay
`asyncio.sleep(0.6)` has no data effect and is not modelled.) -/
def enrich_products (env : EnrichEnv) (products : List Product)
    (scrape : Bool := true) : List BatchItem :=
  products.map fun p =>
    match (enrich_product env p scrape).1 with
    | .ok e => .ok e
    | .error msg => .failed p msg

/-! ## Helper lemmas -/

/-- A string is `""` iff its character list is empty. -/
theorem strData_isEmpty_iff (s : String) : s.data.isEmpty = true ↔ s = "" := by
  cases s with
  | mk l =>
    cases l <;> simp [List.isEmpty, String.ext_iff]

/-- Characters surviving `filter Char.isDigit` are digits. -/
theorem mem_filter_isDigit {l : List Char} {c : Char}
    (h : c ∈ l.filter Char.isDigit) : c.isDigit = true :=
  (List.mem_filter.mp h).2

/-- `barcodeDigits` of the empty string is empty, whatever the float
model does. -/
theorem barcodeDigits_nil (f : String → Option String) (s : String)
    (h : s.data = []) : barcodeDigits f s = [] := by
  simp [barcodeDigits, pyStrip, h, containsSub, occursAt, pyLower, List.range_succ]

/-- Every character of `barcodeDigits` is a digit. -/
theorem barcodeDigits_digits (f : String → Option String) (s : String)
    {c : Char} (h : c ∈ barcodeDigits f s) : c.isDigit = true := by
  unfold barcodeDigits at h
  exact mem_filter_isDigit h

/-- Case analysis of `clean_barcode`: empty result (exactly when no digit
survives cleaning), re-padded 12-digit string, or the cleaned digit
string as-is. -/
theorem clean_barcode_data (f : String → Option String) (s : String) :
    (barcodeDigits f s = [] ∧ clean_barcode f s = "")
    ∨ ((barcodeDigits f s).length = 12
        ∧ (clean_barcode f s).data = '0' :: barcodeDigits f s)
    ∨ ((barcodeDigits f s).length ≠ 12
        ∧ (clean_barcode f s).data = barcodeDigits f s) := by
  by_cases h0 : s.data.isEmpty = true
  · exact Or.inl ⟨barcodeDigits_nil f s (List.isEmpty_iff.mp h0),
      by simp [clean_barcode, h0]⟩
  · unfold clean_barcode
    simp only [h0, Bool.false_eq_true, if_false]
    by_cases hr : 8 ≤ (barcodeDigits f s).length ∧ (barcodeDigits f s).length ≤ 14
    · by_cases h12 : (barcodeDigits f s).length = 12
      · refine Or.inr (Or.inl ⟨h12, ?_⟩)
        simp [hr.1, hr.2, h12]
      · refine Or.inr (Or.inr ⟨h12, ?_⟩)
        simp [hr.1, hr.2, h12]
    · by_cases hd : barcodeDigits f s = []
      · refine Or.inl ⟨hd, ?_⟩
        simp [hd]
      · refine Or.inr (Or.inr ⟨fun h12 => hr ⟨by omega, by omega⟩, ?_⟩)
        have h1 : (8 ≤ (barcodeDigits f s).length
            && (barcodeDigits f s).length ≤ 14) = false := by
          rcases Nat.lt_or_ge (barcodeDigits f s).length 8 with h | h
          · simp; omega
          · simp; intro; omega
        simp [h1, hd]

/-- C5 (amended): for every input, `clean_barcode` returns either the
empty string or a non-empty all-digit string — never a decimal point,
never an exponent marker; when the cleaned digit string has length 8–14
the result has length 8–14, a lost leading zero being re-padded when the
length is exactly 12; cleaned digit strings of any other length are
returned as-is (so outputs shorter than 8 or longer than 14 digits are
possible). -/
theorem C5_clean_barcode_shape (f : String → Option String) (s : String) :
    (clean_barcode f s = "" ∨ (clean_barcode f s).data.all Char.isDigit = true)
    ∧ '.' ∉ (clean_barcode f s).data
    ∧ 'e' ∉ (clean_barcode f s).data
    ∧ 'E' ∉ (clean_barcode f s).data
    ∧ ((barcodeDigits f s).length = 12 →
        (clean_barcode f s).data = '0' :: barcodeDigits f s)
    ∧ (8 ≤ (barcodeDigits f s).length → (barcodeDigits f s).length ≤ 14 →
        8 ≤ (clean_barcode f s).data.length ∧ (clean_barcode f s).data.length ≤ 14) := by
  have hdig : ∀ c ∈ (clean_barcode f s).data, c.isDigit = true := by
    rcases clean_barcode_data f s with ⟨_, h⟩ | ⟨_, h⟩ | ⟨_, h⟩ <;> rw [h]
    · intro c hc; simp at hc
    · intro c hc
      rcases List.mem_cons.mp hc with rfl | hc'
      · decide
      · exact barcodeDigits_digits f s hc'
    · exact fun c hc => barcodeDigits_digits f s hc
  refine ⟨Or.inr (List.all_eq_true.mpr hdig), ?_, ?_, ?_, ?_, ?_⟩
  · intro h; have := hdig _ h; simp [Char.isDigit] at this
  · intro h; have := hdig _ h; simp [Char.isDigit] at this
  · intro h; have := hdig _ h; simp [Char.isDigit] at this
  · intro h12
    rcases clean_barcode_data f s with ⟨hd, _⟩ | ⟨_, h⟩ | ⟨hne, _⟩
    · rw [hd] at h12; simp at h12
    · exact h
    · exact absurd h12 hne
  · intro h8 h14
    rcases clean_barcode_data f s with ⟨hd, _⟩ | ⟨h12, h⟩ | ⟨_, h⟩ <;>
      [skip; rw [h]; rw [h]]
    · rw [hd] at h8; simp at h8
    · simp; omega
    · omega

/-- C5 counterexample: an input cleaning to five digits is returned
as five digits — neither empty nor of length 8–14 — so the claimed
universal 8–14 length invariant fails.  ("12345" contains no `'e'` and no
`'.'`, so the two float-conversion steps are not reached and the result
is the same for every model of `float`; both a trivial and a non-trivial
model are exhibited.) -/
theorem C5_length_invariant_counterexample :
    clean_barcode (fun _ => none) "12345" = "12345"
    ∧ clean_barcode (fun _ => some "99999999") "12345" = "12345"
    ∧ ("12345" : String).data.length = 5
    ∧ ¬("12345" : String) = ""
    ∧ ¬(8 ≤ ("12345" : String).data.length ∧ ("12345" : String).data.length ≤ 14) := by
  refine ⟨by decide, by decide, by decide, by decide, by decide⟩

/-- C5 witness: a concrete 12-digit cleaning is re-padded to 13 digits. -/
theorem C5_clean_barcode_shape_witness :
    (clean_barcode (fun _ => none) "501234567890").data
      = '0' :: barcodeDigits (fun _ => none) "501234567890" :=
  (C5_clean_barcode_shape (fun _ => none) "501234567890").2.2.2.2.1 (by decide)

/-! ## C3: rich-text paragraphs -/

/-- C3: evaluation of the code at the spec's own example.  The whitespace
normalization `re.sub(r'\s+', ' ', ...)` runs before the `split('\n')`,
and `\s` matches `'\n'`, so every newline has already been replaced by a
space when the paragraph split happens: `"Line one\nLine two"` produces
ONE paragraph whose text is `"Line one Line two"`, not two paragraphs —
contradicting the source's own `# Handle newlines - convert to paragraph
breaks` comment and the claimed shape. -/
theorem C3_rich_text_single_paragraph :
    richTextParagraphs "Line one\nLine two" = ["Line one Line two"]
    ∧ format_rich_text_metafield "Line one\nLine two" =
      "\x7b\"type\":\"root\",\"children\":[\x7b\"type\":\"paragraph\",\"children\":[\x7b\"type\":\"text\",\"value\":\"Line one Line two\"\x7d]\x7d]\x7d"
    ∧ (richTextParagraphs "Line one\nLine two").length ≠ 2 := by
  refine ⟨by decide, by decide, by decide⟩

/-! ## C7: `detect_has_headers` -/

/-- C7 (amended): for every non-empty first row, the classification is:
keyword score ≥ 2 → headered; otherwise data score ≥ 2 → headerless;
otherwise headered by default — and the two example rows classify as the
spec states.  (The empty first row is the one exception, see the
counterexample.) -/
theorem C7_detect_has_headers_classification :
    (∀ row : List String, row ≠ [] →
      detect_has_headers row
        = (decide (2 ≤ keywordMatches row) || !decide (2 ≤ dataIndicators row)))
    ∧ detect_has_headers ["SKU", "Description", "Barcode"] = true
    ∧ detect_has_headers
        ["37136", "5030009999999", "Ainsworths Organic Soup", "Yes", "No"] = false := by
  refine ⟨?_, by decide, by decide⟩
  intro row hrow
  unfold detect_has_headers
  rw [if_neg (by simp [List.isEmpty_iff, hrow])]
  by_cases hk : 2 ≤ keywordMatches row
  · simp [hk]
  · by_cases hd : 2 ≤ dataIndicators row <;> simp [hk, hd]

/-- C7 witness: the general clause applied to the headerless example
row. -/
theorem C7_detect_has_headers_classification_witness :
    detect_has_headers ["37136", "5030009999999", "Ainsworths Organic Soup", "Yes", "No"]
      = (decide (2 ≤ keywordMatches
            ["37136", "5030009999999", "Ainsworths Organic Soup", "Yes", "No"])
         || !decide (2 ≤ dataIndicators
            ["37136", "5030009999999", "Ainsworths Organic Soup", "Yes", "No"])) :=
  C7_detect_has_headers_classification.1
    ["37136", "5030009999999", "Ainsworths Organic Soup", "Yes", "No"] (by decide)

/-- C7 counterexample: the empty first row has keyword score 0 and data
score 0, so the claimed default says "headered", but the code's
`if not first_row: return False` classifies it headerless. -/
theorem C7_empty_row_counterexample :
    detect_has_headers [] = false
    ∧ keywordMatches [] = 0 ∧ dataIndicators [] = 0 := by
  refine ⟨by decide, by decide, by decide⟩

/-! ## Order lemmas for `lexLt` / `sortStrings` -/

theorem lexLt_irrefl : ∀ a, lexLt a a = false := by
  intro a
  induction a with
  | nil => rfl
  | cons x as ih => simp [lexLt, ih]

theorem lexLt_trans : ∀ a b c, lexLt a b = true → lexLt b c = true → lexLt a c = true := by
  intro a
  induction a with
  | nil =>
    intro b c h1 h2
    cases b with
    | nil => simp [lexLt] at h1
    | cons y bs =>
      cases c with
      | nil => simp [lexLt] at h2
      | cons z cs => simp [lexLt]
  | cons x as ih =>
    intro b c h1 h2
    cases b with
    | nil => simp [lexLt] at h1
    | cons y bs =>
      cases c with
      | nil => simp [lexLt] at h2
      | cons z cs =>
        simp only [lexLt] at h1 h2 ⊢
        split_ifs at h1 h2 ⊢ <;>
          first
            | rfl
            | omega
            | exact ih bs cs h1 h2

theorem lexLt_asymm : ∀ a b, lexLt a b = true → lexLt b a = false := by
  intro a b h
  rcases hba : lexLt b a with _ | _
  · rfl
  · have := lexLt_trans a b a h hba
    rw [lexLt_irrefl] at this
    exact absurd this Bool.false_ne_true

theorem lexLt_antisymm : ∀ a b, lexLt a b = false → lexLt b a = false → a = b := by
  intro a
  induction a with
  | nil =>
    intro b h1 _
    cases b with
    | nil => rfl
    | cons y bs => simp [lexLt] at h1
  | cons x as ih =>
    intro b h1 h2
    cases b with
    | nil => simp [lexLt] at h2
    | cons y bs =>
      simp only [lexLt] at h1 h2
      by_cases hxy : x.toNat < y.toNat
      · simp [hxy] at h1
      · by_cases hyx : y.toNat < x.toNat
        · simp [hyx] at h2
        · rw [if_neg hxy, if_neg hyx] at h1
          rw [if_neg hyx, if_neg hxy] at h2
          have hn : x.toNat = y.toNat := by omega
          have hx : x = y := Char.ext (UInt32.ext hn)
          rw [hx, ih bs h1 h2]

theorem strLt_asymm {a b : String} (h : strLt a b = true) : strLt b a = false :=
  lexLt_asymm a.data b.data h

theorem strLt_antisymm {a b : String} (h1 : strLt a b = false)
    (h2 : strLt b a = false) : a = b := by
  have := lexLt_antisymm a.data b.data h1 h2
  exact String.ext this

theorem strLt_trans {a b c : String} (h1 : strLt a b = true)
    (h2 : strLt b c = true) : strLt a c = true :=
  lexLt_trans a.data b.data c.data h1 h2

theorem perm_insertSorted (x : String) (l : List String) :
    (insertSorted x l).Perm (x :: l) := by
  induction l with
  | nil => exact List.Perm.refl _
  | cons y ys ih =>
    unfold insertSorted
    by_cases h : strLt x y = true
    · rw [if_pos h]
    · rw [if_neg h]
      exact (ih.cons y).trans (List.Perm.swap x y ys)

theorem pairwise_insertSorted (x : String) (l : List String)
    (h : l.Pairwise fun a b => strLt b a = false) :
    (insertSorted x l).Pairwise fun a b => strLt b a = false := by
  induction l with
  | nil => simp [insertSorted]
  | cons y ys ih =>
    rcases List.pairwise_cons.mp h with ⟨hy, hys⟩
    unfold insertSorted
    by_cases hxy : strLt x y = true
    · rw [if_pos hxy]
      refine List.pairwise_cons.mpr ⟨?_, h⟩
      intro z hz
      rcases List.mem_cons.mp hz with rfl | hz'
      · exact strLt_asymm hxy
      · rcases hzx : strLt z x with _ | _
        · rfl
        · exact absurd (strLt_trans hzx hxy) (by simp [hy z hz'])
    · rw [if_neg hxy]
      refine List.pairwise_cons.mpr ⟨?_, ih hys⟩
      intro z hz
      rcases List.mem_cons.mp ((perm_insertSorted x ys).mem_iff.mp hz) with rfl | hz'
      · exact Bool.not_eq_true _ ▸ hxy
      · exact hy z hz'

theorem sortStrings_perm (l : List String) : (sortStrings l).Perm l := by
  induction l with
  | nil => exact List.Perm.refl _
  | cons x xs ih => exact ((perm_insertSorted x (sortStrings xs)).trans (ih.cons x))

theorem sortStrings_pairwise (l : List String) :
    (sortStrings l).Pairwise fun a b => strLt b a = false := by
  induction l with
  | nil => simp [sortStrings]
  | cons x xs ih => exact pairwise_insertSorted x (sortStrings xs) ih

theorem pairwise_strLt_of_nodup {l : List String}
    (hs : l.Pairwise fun a b => strLt b a = false) (hn : l.Nodup) :
    l.Pairwise fun a b => strLt a b = true := by
  refine (hs.and hn).imp ?_
  rintro a b ⟨hle, hne⟩
  rcases h : strLt a b with _ | _
  · exact absurd (strLt_antisymm h hle) hne
  · rfl

/-- `sorted(set(l))` is strictly ascending and duplicate-free. -/
theorem pySortedSet_sorted_nodup (l : List String) :
    (pySortedSet l).Pairwise (fun a b => strLt a b = true) ∧ (pySortedSet l).Nodup := by
  have hn : (pySortedSet l).Nodup :=
    ((sortStrings_perm l.dedup).nodup_iff).mpr (List.nodup_dedup l)
  exact ⟨pairwise_strLt_of_nodup (sortStrings_pairwise l.dedup) hn, hn⟩

theorem mem_pySortedSet {x : String} {l : List String} :
    x ∈ pySortedSet l ↔ x ∈ l :=
  ((sortStrings_perm l.dedup).mem_iff).trans (List.mem_dedup)

/-- Folding a guarded "append if new" step preserves `Nodup`. -/
theorem foldl_append_guard_nodup {α β : Type} [DecidableEq β]
    (P : α → Bool) (g : α → β) :
    ∀ (l : List α) (acc : List β), acc.Nodup →
      (l.foldl (fun acc x =>
        if P x then (if g x ∈ acc then acc else acc ++ [g x]) else acc) acc).Nodup := by
  intro l
  induction l with
  | nil => intro acc h; exact h
  | cons x xs ih =>
    intro acc h
    refine ih _ ?_
    by_cases hP : P x = true
    · by_cases hm : g x ∈ acc
      · simp [hP, hm, h]
      · simp only [hP, hm, if_true, if_false]
        exact h.append (List.nodup_singleton _) (by simp [List.disjoint_singleton, hm])
    · simp [hP, h]

/-- C10: for every input, `detect_dietary_attributes` and
`extract_allergens` return strictly ascending (code-point lexicographic,
i.e. Python `sorted`) lists without duplicates. -/
theorem C10_results_sorted_nodup (pf : String → Option ℚ) (ing pt : String)
    (bdg : List String) (nut : List (String × String)) :
    ((detect_dietary_attributes pf ing pt bdg nut).Pairwise fun a b => strLt a b = true)
    ∧ (detect_dietary_attributes pf ing pt bdg nut).Nodup
    ∧ ((extract_allergens ing).Pairwise fun a b => strLt a b = true)
    ∧ (extract_allergens ing).Nodup := by
  have hfound : (ALLERGEN_PATTERNS.foldl
      (fun acc np =>
        if np.2.any (fun p => ingredientPresent p.data (pyLower ing.data)) then
          (if (⟨pyTitle (np.1.data.map fun c => if c = '_' then ' ' else c)⟩ : String) ∈ acc
           then acc
           else acc ++ [(⟨pyTitle (np.1.data.map fun c => if c = '_' then ' ' else c)⟩ : String)])
        else acc)
      []).Nodup :=
    foldl_append_guard_nodup _ _ ALLERGEN_PATTERNS [] List.nodup_nil
  have hex_nodup : (extract_allergens ing).Nodup :=
    ((sortStrings_perm _).nodup_iff).mpr hfound
  have hex_sorted : (extract_allergens ing).Pairwise fun a b => strLt a b = true :=
    pairwise_strLt_of_nodup (sortStrings_pairwise _) hex_nodup
  exact ⟨(pySortedSet_sorted_nodup _).1, (pySortedSet_sorted_nodup _).2,
    hex_sorted, hex_nodup⟩

/-! ## Characterizing membership in `detect_dietary_attributes` -/

/-- When the rule loop appends a tag: an explicit-marker rule fires on a
marker hit; any other rule fires on a marker hit, or by inference when no
negative ingredient is present, the ingredient text is non-empty and the
rule has negative ingredients to check. -/
def ruleFires (rule : DietaryRule) (ingredients_lower all_text : List Char) : Bool :=
  if rule.requires_explicit_marker then hasMarker rule all_text
  else hasMarker rule all_text
    || (!hasNegative rule ingredients_lower && !ingredients_lower.isEmpty
        && !rule.negative_ingredients.isEmpty)

theorem ruleAttributes_eq_filterMap (il at_ : List Char) :
    ruleAttributes il at_
      = DIETARY_RULES.filterMap fun nr =>
          if ruleFires nr.2 il at_ then some nr.1 else none := by
  unfold ruleAttributes
  refine congrArg (fun f => List.filterMap f DIETARY_RULES) (funext fun nr => ?_)
  rcases hreq : nr.2.requires_explicit_marker with _ | _ <;>
    rcases hm : hasMarker nr.2 at_ with _ | _ <;>
      simp [ruleFires, hreq, hm]

theorem mem_ruleAttributes {name : String} {il at_ : List Char} :
    name ∈ ruleAttributes il at_
      ↔ ∃ r, (name, r) ∈ DIETARY_RULES ∧ ruleFires r il at_ = true := by
  rw [ruleAttributes_eq_filterMap, List.mem_filterMap]
  constructor
  · rintro ⟨nr, hmem, hf⟩
    by_cases h : ruleFires nr.2 il at_ = true
    · rw [if_pos h] at hf
      cases hf
      exact ⟨nr.2, by cases nr; exact hmem, h⟩
    · rw [if_neg h] at hf
      cases hf
  · rintro ⟨r, hmem, hf⟩
    exact ⟨(name, r), hmem, by simp [hf]⟩

/-- In an association list with distinct keys, a key determines its
value. -/
theorem assoc_value_unique {α β : Type} :
    ∀ (l : List (α × β)), (l.map Prod.fst).Nodup →
      ∀ a b₁ b₂, (a, b₁) ∈ l → (a, b₂) ∈ l → b₁ = b₂ := by
  intro l
  induction l with
  | nil => intro _ a b₁ b₂ h; simp at h
  | cons x t ih =>
    intro hn a b₁ b₂ hm1 hm2
    rw [List.map_cons] at hn
    rcases List.nodup_cons.mp hn with ⟨hx, ht⟩
    rcases List.mem_cons.mp hm1 with h1 | h1 <;> rcases List.mem_cons.mp hm2 with h2 | h2 <;>
      clear hm1 hm2
    · subst h1
      injection h2 with _ hb
      exact hb.symm
    · subst h1
      refine absurd ?_ hx
      exact List.mem_map.mpr ⟨(a, b₂), h2, rfl⟩
    · subst h2
      refine absurd ?_ hx
      exact List.mem_map.mpr ⟨(a, b₁), h1, rfl⟩
    · exact ih ht a b₁ b₂ h1 h2

theorem DIETARY_RULES_keys_nodup : (DIETARY_RULES.map Prod.fst).Nodup := by decide

theorem dietary_rule_unique {name : String} {r₁ r₂ : DietaryRule}
    (h1 : (name, r₁) ∈ DIETARY_RULES) (h2 : (name, r₂) ∈ DIETARY_RULES) : r₁ = r₂ :=
  assoc_value_unique DIETARY_RULES DIETARY_RULES_keys_nodup name r₁ r₂ h1 h2

/-- Full membership characterization of `detect_dietary_attributes`: a tag
is returned iff its rule fires, or it is `"Sugar Free"` and the nutrition
dict supplies a `sugars` value parsing to at most 0.5. -/
theorem mem_detect_iff (pf : String → Option ℚ) (ing pt : String)
    (bdg : List String) (nut : List (String × String)) (name : String) :
    name ∈ detect_dietary_attributes pf ing pt bdg nut
      ↔ (∃ r, (name, r) ∈ DIETARY_RULES
           ∧ ruleFires r (pyLower ing.data) (dietaryAllText ing pt bdg) = true)
        ∨ (name = "Sugar Free" ∧ nut.isEmpty = false
           ∧ ∃ q, pf ((nut.lookup "sugars").getD "999") = some q ∧ q ≤ mkRat 1 2) := by
  rw [show detect_dietary_attributes pf ing pt bdg nut = pySortedSet (
      let A := ruleAttributes (pyLower ing.data) (dietaryAllText ing pt bdg)
      if nut.isEmpty then A
      else if "Sugar Free" ∈ A then A
      else match pf ((nut.lookup "sugars").getD "999") with
        | some sugars => if sugars ≤ mkRat 1 2 then A ++ ["Sugar Free"] else A
        | none => A) from rfl]
  rw [mem_pySortedSet]
  by_cases hnut : nut.isEmpty
  · rw [show (let A := ruleAttributes (pyLower ing.data) (dietaryAllText ing pt bdg)
      if nut.isEmpty then A
      else if "Sugar Free" ∈ A then A
      else match pf ((nut.lookup "sugars").getD "999") with
        | some sugars => if sugars ≤ mkRat 1 2 then A ++ ["Sugar Free"] else A
        | none => A) = ruleAttributes (pyLower ing.data) (dietaryAllText ing pt bdg) by
        simp [hnut]]
    rw [mem_ruleAttributes]
    simp [hnut]
  · have hnut' : nut.isEmpty = false := by simpa using hnut
    simp only [hnut', Bool.false_eq_true, if_false]
    by_cases hSF : "Sugar Free" ∈ ruleAttributes (pyLower ing.data) (dietaryAllText ing pt bdg)
    · rw [if_pos hSF, mem_ruleAttributes]
      constructor
      · exact Or.inl
      · rintro (h | ⟨rfl, _, _⟩)
        · exact h
        · exact mem_ruleAttributes.mp hSF
    · rw [if_neg hSF]
      rcases hq : pf ((nut.lookup "sugars").getD "999") with _ | q
      · simp only [hq, mem_ruleAttributes]
        constructor
        · exact Or.inl
        · rintro (h | ⟨_, _, q', hq', _⟩)
          · exact h
          · cases hq'
      · simp only [hq]
        by_cases hle : q ≤ mkRat 1 2
        · rw [if_pos hle, List.mem_append, mem_ruleAttributes]
          constructor
          · rintro (h | h)
            · exact Or.inl h
            · have hname : name = "Sugar Free" := by simpa using h
              exact Or.inr ⟨hname, trivial, ⟨q, rfl, hle⟩⟩
          · rintro (h | ⟨rfl, _, _⟩)
            · exact Or.inl h
            · simp
        · rw [if_neg hle, mem_ruleAttributes]
          constructor
          · exact Or.inl
          · rintro (h | ⟨rfl, _, q', hq', hle'⟩)
            · exact h
            · cases hq'
              exact absurd hle' hle

theorem ruleFires_explicit {r : DietaryRule} {il at_ : List Char}
    (h : r.requires_explicit_marker = true) :
    ruleFires r il at_ = true ↔ hasMarker r at_ = true := by
  simp [ruleFires, h]

theorem ruleFires_inferred {r : DietaryRule} {il at_ : List Char}
    (h : r.requires_explicit_marker = false) :
    ruleFires r il at_ = true
      ↔ hasMarker r at_ = true
        ∨ (hasNegative r il = false ∧ il ≠ [] ∧ r.negative_ingredients ≠ []) := by
  simp only [ruleFires, h, Bool.false_eq_true, if_false, Bool.or_eq_true,
    Bool.and_eq_true, Bool.not_eq_true', List.isEmpty_eq_false]
  tauto

theorem exists_rule_iff {name : String} {r : DietaryRule}
    (hmem : (name, r) ∈ DIETARY_RULES) (P : DietaryRule → Prop) :
    (∃ r', (name, r') ∈ DIETARY_RULES ∧ P r') ↔ P r :=
  ⟨fun ⟨_, h', hp⟩ => (dietary_rule_unique h' hmem) ▸ hp, fun hp => ⟨r, hmem, hp⟩⟩

theorem rule_explicit_not_sugar :
    ∀ nr ∈ DIETARY_RULES, nr.2.requires_explicit_marker = true →
      nr.1 ≠ "Sugar Free" := by decide

/-- Modelled from Python `float()`, restricted to plain digit strings
(where the parsed double is exactly the decimal value, for values below
2^53); `none` on every other input stands for any other behaviour —
theorems never rely on this instantiation, only concrete
witnesses/counterexamples use it. -/
def floatOfDigits (s : String) : Option ℚ :=
  if !s.data.isEmpty && s.data.all Char.isDigit then
    some ((s.data.foldl (fun n c => n * 10 + (c.toNat - 48)) 0 : ℕ) : ℚ)
  else none

/-- C6 (amended): an explicit-marker tag (Organic, Fairtrade, Raw) is in
the result iff a positive marker is found; every other tag is in the
result iff a marker is found or no negative ingredient is present with a
non-empty ingredient text (and a non-empty negative list) — with the one
exception of Sugar Free, which is additionally added when the nutrition
dict supplies a `sugars` value that parses to at most 0.5. -/
theorem C6_marker_and_inference_rules (pf : String → Option ℚ) (ing pt : String)
    (bdg : List String) (nut : List (String × String)) (name : String)
    (r : DietaryRule) (hmem : (name, r) ∈ DIETARY_RULES) :
    (r.requires_explicit_marker = true →
      (name ∈ detect_dietary_attributes pf ing pt bdg nut
        ↔ hasMarker r (dietaryAllText ing pt bdg) = true))
    ∧ (r.requires_explicit_marker = false → name ≠ "Sugar Free" →
      (name ∈ detect_dietary_attributes pf ing pt bdg nut
        ↔ (hasMarker r (dietaryAllText ing pt bdg) = true
           ∨ (hasNegative r (pyLower ing.data) = false ∧ pyLower ing.data ≠ []
              ∧ r.negative_ingredients ≠ []))))
    ∧ (r.requires_explicit_marker = false → name = "Sugar Free" →
      (name ∈ detect_dietary_attributes pf ing pt bdg nut
        ↔ (hasMarker r (dietaryAllText ing pt bdg) = true
           ∨ (hasNegative r (pyLower ing.data) = false ∧ pyLower ing.data ≠ []
              ∧ r.negative_ingredients ≠ [])
           ∨ (nut.isEmpty = false
              ∧ ∃ q, pf ((nut.lookup "sugars").getD "999") = some q ∧ q ≤ mkRat 1 2)))) := by
  refine ⟨?_, ?_, ?_⟩
  · intro hreq
    rw [mem_detect_iff, exists_rule_iff hmem]
    constructor
    · rintro (hf | ⟨hn, _⟩)
      · exact (ruleFires_explicit hreq).mp hf
      · exact absurd hn (rule_explicit_not_sugar (name, r) hmem hreq)
    · intro h
      exact Or.inl ((ruleFires_explicit hreq).mpr h)
  · intro hreq hns
    rw [mem_detect_iff, exists_rule_iff hmem]
    constructor
    · rintro (hf | ⟨hn, _⟩)
      · exact (ruleFires_inferred hreq).mp hf
      · exact absurd hn hns
    · intro h
      exact Or.inl ((ruleFires_inferred hreq).mpr h)
  · intro hreq hns
    rw [mem_detect_iff, exists_rule_iff hmem]
    constructor
    · rintro (hf | ⟨_, hne, hq⟩)
      · rcases (ruleFires_inferred hreq).mp hf with h | h
        · exact Or.inl h
        · exact Or.inr (Or.inl h)
      · exact Or.inr (Or.inr ⟨hne, hq⟩)
    · rintro (h | h | ⟨hne, hq⟩)
      · exact Or.inl ((ruleFires_inferred hreq).mpr (Or.inl h))
      · exact Or.inl ((ruleFires_inferred hreq).mpr (Or.inr h))
      · exact Or.inr ⟨hns, hne, hq⟩

/-- C6 counterexample: with an empty ingredient list, no marker anywhere,
and nutrition `{"sugars": "0"}`, the non-explicit rule Sugar Free IS
added — from the nutrition branch, not from a marker and not from
ingredient inference (the claim allows only those two ways). -/
theorem C6_empty_ingredients_sugar_free_counterexample :
    detect_dietary_attributes floatOfDigits "" "" [] [("sugars", "0")]
      = ["Sugar Free"]
    ∧ detect_dietary_attributes floatOfDigits "" "" [] [] = [] := by
  refine ⟨by decide, by decide⟩

/-- C6 witness: the amended characterization applied to the spec's
example "Water, Sugar, Cocoa, Salt": Organic (explicit) is not detected —
no marker — while Vegan is detected by inference. -/
theorem C6_marker_and_inference_rules_witness :
    ("Organic" ∉ detect_dietary_attributes floatOfDigits "Water, Sugar, Cocoa, Salt" "" [] [])
    ∧ ("Vegan" ∈ detect_dietary_attributes floatOfDigits "Water, Sugar, Cocoa, Salt" "" [] []) := by
  constructor
  · intro hmem
    have h := (C6_marker_and_inference_rules floatOfDigits "Water, Sugar, Cocoa, Salt" "" [] []
      "Organic"
      { negative_ingredients := [],
        positive_markers := [
          "organic", "certified organic", "soil association", "of certified organic"],
        requires_explicit_marker := true,
        check_certification := true } (by decide)).1 rfl
    exact absurd (h.mp hmem) (by decide)
  · have h := (C6_marker_and_inference_rules floatOfDigits "Water, Sugar, Cocoa, Salt" "" [] []
      "Vegan"
      { negative_ingredients := [
          "milk", "dairy", "cream", "butter", "cheese", "whey", "casein",
          "lactose", "ghee", "yoghurt", "yogurt", "curd", "buttermilk",
          "egg", "albumen", "albumin", "mayonnaise", "meringue",
          "meat", "beef", "pork", "chicken", "fish", "seafood", "anchovy",
          "prawn", "shrimp", "crab", "lobster", "bacon", "ham", "lard",
          "tallow", "suet", "gelatin", "gelatine", "collagen",
          "honey", "beeswax", "royal jelly", "propolis",
          "shellac", "carmine", "cochineal", "isinglass",
          "lanolin", "keratin", "silk", "wool"],
        positive_markers := ["vegan", "plant-based", "plant based", "100% plant", "no animal"],
        requires_explicit_marker := false,
        check_certification := true } (by decide)).2.1 rfl (by decide)
    exact h.mpr (Or.inr ⟨by decide, by decide, by decide⟩)

/-! ## C2: word-boundary matching -/

/-- Supporting result for the word-boundary analysis: the
negative-ingredient tests are word-boundary-safe — for any rule, if no
negative ingredient has a word-boundary-delimited occurrence in the
(lowercased) ingredient text, the tag is not suppressed (it is returned
whenever the inference branch applies), regardless of any
proper-substring occurrences; the positive-marker tests, however, use
plain substring containment, so a marker occurring anywhere in the
combined text — including strictly inside a longer word — does add its
tag. -/
theorem boundary_negatives_substring_markers (pf : String → Option ℚ)
    (ing pt : String) (bdg : List String) (name : String) (r : DietaryRule)
    (hmem : (name, r) ∈ DIETARY_RULES) :
    (r.requires_explicit_marker = false → r.negative_ingredients ≠ [] →
      pyLower ing.data ≠ [] →
      (∀ neg ∈ r.negative_ingredients,
        ingredientPresent neg.data (pyLower ing.data) = false) →
      name ∈ detect_dietary_attributes pf ing pt bdg [])
    ∧ ((∃ m ∈ r.positive_markers,
          containsSub m.data (dietaryAllText ing pt bdg) = true) →
        name ∈ detect_dietary_attributes pf ing pt bdg []) := by
  constructor
  · intro hreq hnegs hil hnone
    have hneg : hasNegative r (pyLower ing.data) = false := by
      unfold hasNegative
      rw [List.any_eq_false]
      intro neg hmemneg
      simp [hnone neg hmemneg]
    rw [mem_detect_iff]
    exact Or.inl ⟨r, hmem, (ruleFires_inferred hreq).mpr (Or.inr ⟨hneg, hil, hnegs⟩)⟩
  · rintro ⟨m, hm, hsub⟩
    have hmark : hasMarker r (dietaryAllText ing pt bdg) = true := by
      unfold hasMarker
      rw [List.any_eq_true]
      exact ⟨m, hm, hsub⟩
    rw [mem_detect_iff]
    rcases hreq : r.requires_explicit_marker with _ | _
    · exact Or.inl ⟨r, hmem, (ruleFires_inferred hreq).mpr (Or.inl hmark)⟩
    · exact Or.inl ⟨r, hmem, (ruleFires_explicit hreq).mpr hmark⟩

/-- Supporting examples: "oat" and "oats" occur inside "coated" but
suppress nothing — Gluten Free is still inferred for "coated rice"; and a
marker inside "strawberry" adds Raw. -/
theorem boundary_negatives_substring_markers_examples :
    ("Gluten Free" ∈ detect_dietary_attributes (fun _ => none) "coated rice" "" [] [])
    ∧ ("Raw" ∈ detect_dietary_attributes (fun _ => none) "" "strawberry" [] []) := by
  constructor
  · exact (boundary_negatives_substring_markers (fun _ => none) "coated rice" "" []
      "Gluten Free"
      { negative_ingredients := [
          "wheat", "barley", "rye", "oats", "spelt", "kamut", "triticale",
          "semolina", "durum", "bulgur", "couscous", "farina", "farro",
          "gluten", "seitan", "malt", "brewer's yeast"],
        positive_markers := ["gluten free", "gluten-free", "gf", "coeliac friendly", "celiac friendly"],
        requires_explicit_marker := false,
        check_certification := true } (by decide)).1
      rfl (by decide) (by decide) (by decide)
  · exact (boundary_negatives_substring_markers (fun _ => none) "" "strawberry" []
      "Raw"
      { negative_ingredients := [],
        positive_markers := ["raw", "unroasted", "uncooked", "cold pressed"],
        requires_explicit_marker := true,
        check_certification := false } (by decide)).2
      ⟨"raw", by decide, by decide⟩

/-- C2: evaluation of the code at a failing input.  The spec mandates
word-boundary matching "for every ingredient/marker test", and the
source's `_ingredient_present` implements it for the negative-ingredient
tests (its own comment: `"oat" shouldn't match in "coated"` — third
conjunct shows that test working as specified).  But the positive-marker
check at `dietary_detector.py:206-209` is a plain `marker in all_text`
substring test that bypasses `_ingredient_present`: `"raw"` occurs in the
combined text `" strawberry "` only strictly inside the longer word
"strawberry" — the boundary-safe matcher finds no occurrence (second
conjunct) — yet the Raw tag is added (first conjunct), contradicting the
claim and the spec's stated rule. -/
theorem C2_marker_not_boundary_safe :
    ("Raw" ∈ detect_dietary_attributes (fun _ => none) "" "strawberry" [] []
      ∧ ingredientPresent "raw".data (dietaryAllText "" "strawberry" []) = false
      ∧ containsSub "raw".data (dietaryAllText "" "strawberry" []) = true)
    ∧ ingredient_present "oat" "coated" = false
    ∧ ("Gluten Free" ∈ detect_dietary_attributes (fun _ => none) "coated rice" "" [] []) := by
  refine ⟨⟨by decide, by decide, by decide⟩, by decide, by decide⟩

/-! ## C8: batch enrichment never aborts -/

/-- C8: `enrich_products` returns one item per product, in order: the
`i`-th output is the enrichment of the `i`-th input, and when enriching a
product raises, that product is still included at its position, annotated
with the error, without affecting any other item. -/
theorem C8_batch_partial_success (env : EnrichEnv) (products : List Product)
    (scrape : Bool) :
    (enrich_products env products scrape).length = products.length
    ∧ ∀ i p, products.get? i = some p →
        (∀ msg, (enrich_product env p scrape).1 = .error msg →
          (enrich_products env products scrape).get? i = some (.failed p msg))
        ∧ (∀ e, (enrich_product env p scrape).1 = .ok e →
          (enrich_products env products scrape).get? i = some (.ok e)) := by
  refine ⟨by simp [enrich_products], ?_⟩
  intro i p hp
  constructor
  · intro msg hmsg
    unfold enrich_products
    rw [List.get?_map, hp]
    simp [hmsg]
  · intro e he
    unfold enrich_products
    rw [List.get?_map, hp]
    simp [he]

/-- A trivial environment whose supplier scrape raises: used to witness
the failure-annotation path. -/
def envScrapeFails : EnrichEnv :=
  { fetch_nutrition_by_barcode := fun _ => .ok none,
    scrape_brand_website := fun _ _ _ => .ok none,
    scrape_product_data := fun _ _ _ => .error "boom" }

/-- C8 witness: a batch of one product whose supplier scrape raises still
returns one item — the product annotated with the error. -/
theorem C8_batch_partial_success_witness :
    (enrich_products envScrapeFails [{ name := "P" }] true).length
      = ([{ name := "P" }] : List Product).length
    ∧ (enrich_products envScrapeFails [{ name := "P" }] true).get? 0
      = some (.failed { name := "P" } "boom") :=
  ⟨(C8_batch_partial_success envScrapeFails [{ name := "P" }] true).1,
   ((C8_batch_partial_success envScrapeFails [{ name := "P" }] true).2
      0 { name := "P" } rfl).1 "boom" rfl⟩

/-! ## C9: the barcode-lookup stage fills only empty fields -/

/-- C9: the OpenFoodFacts stage never overwrites a non-empty
`ingredients` (nor its source label) and never overwrites non-empty
`allergens` — whatever the lookup returns, succeeding or not. -/
theorem C9_off_stage_fills_only_empty (env : EnrichEnv) (ean : String)
    (st : EnrichState) :
    (st.product.ingredients ≠ "" →
      (offStage env ean st).product.ingredients = st.product.ingredients
      ∧ (offStage env ean st).product.ingredients_source
        = st.product.ingredients_source)
    ∧ (st.product.allergens ≠ "" →
      (offStage env ean st).product.allergens = st.product.allergens) := by
  constructor
  · intro h
    have hne : st.product.ingredients.data.isEmpty = false := by
      rcases hb : st.product.ingredients.data.isEmpty with _ | _
      · rfl
      · exact absurd ((strData_isEmpty_iff _).mp hb) h
    unfold offStage
    split
    · exact ⟨rfl, rfl⟩
    split
    · split
      · exact ⟨rfl, rfl⟩
      · exact ⟨rfl, rfl⟩
      · split
        · exact ⟨rfl, rfl⟩
        · simp only [hne, Bool.and_false, Bool.false_eq_true, if_false]
          split <;> exact ⟨rfl, rfl⟩
    · exact ⟨rfl, rfl⟩
  · intro h
    have hne : st.product.allergens.data.isEmpty = false := by
      rcases hb : st.product.allergens.data.isEmpty with _ | _
      · rfl
      · exact absurd ((strData_isEmpty_iff _).mp hb) h
    unfold offStage
    split
    · rfl
    split
    · split
      · rfl
      · rfl
      · split
        · rfl
        · dsimp only
          split
          · simp [hne]
          · simp [hne]
    · rfl

/-- An environment whose barcode lookup succeeds with nutrition,
ingredients and allergens on offer. -/
def envOffRich : EnrichEnv :=
  { fetch_nutrition_by_barcode := fun _ =>
      .ok (some [("sugars", "1"), ("ingredients_from_off", "Oats"),
                 ("allergens_from_off", "Gluten")]),
    scrape_brand_website := fun _ _ _ => .ok none,
    scrape_product_data := fun _ _ _ => .ok {} }

/-- A state whose product already carries ingredients (with a source
label) and allergens. -/
def stPrefilled : EnrichState :=
  { product := { name := "P", ingredients := "Water",
                 ingredients_source := "csv", allergens := "Milk" },
    nutrition := [], nutrition_source := "", calls := [] }

/-- C9 witness: a successful lookup offering ingredients and allergens
leaves the pre-filled fields and the source label untouched. -/
theorem C9_off_stage_fills_only_empty_witness :
    ((offStage envOffRich "12345678" stPrefilled).product.ingredients
        = stPrefilled.product.ingredients
      ∧ (offStage envOffRich "12345678" stPrefilled).product.ingredients_source
        = stPrefilled.product.ingredients_source)
    ∧ (offStage envOffRich "12345678" stPrefilled).product.allergens
        = stPrefilled.product.allergens :=
  ⟨(C9_off_stage_fills_only_empty envOffRich "12345678" stPrefilled).1 (by decide),
   (C9_off_stage_fills_only_empty envOffRich "12345678" stPrefilled).2 (by decide)⟩

/-! ## C1: CSV nutrition is authoritative -/

/-- The OpenFoodFacts stage does nothing when nutrition is already
present (whether or not it came from the CSV). -/
theorem offStage_of_nutrition_nonempty (env : EnrichEnv) (ean : String)
    (st : EnrichState) (h : st.nutrition ≠ []) : offStage env ean st = st := by
  unfold offStage
  split
  · rfl
  split
  · rename_i hc
    simp only [Bool.and_eq_true] at hc
    exact absurd (List.isEmpty_iff.mp hc.1.1) h
  · rfl

/-- The brand stage never changes nutrition when it is already present,
and only ever appends its own entry to the call log. -/
theorem brandStage_of_nutrition_nonempty (env : EnrichEnv) (brand name ean : String)
    (st : EnrichState) (h : st.nutrition ≠ []) :
    (brandStage env brand name ean st).nutrition = st.nutrition
    ∧ (brandStage env brand name ean st).nutrition_source = st.nutrition_source
    ∧ ((brandStage env brand name ean st).calls = st.calls
       ∨ (brandStage env brand name ean st).calls
         = st.calls ++ ["scrape_brand_website"]) := by
  have he : st.nutrition.isEmpty = false := by
    rcases hb : st.nutrition.isEmpty with _ | _
    · rfl
    · exact absurd (List.isEmpty_iff.mp hb) h
  unfold brandStage
  split
  · split
    · exact ⟨rfl, rfl, Or.inr rfl⟩
    · exact ⟨rfl, rfl, Or.inr rfl⟩
    · simp only [he, Bool.false_and, Bool.false_eq_true, if_false]
      split <;> split <;> split <;> exact ⟨rfl, rfl, Or.inr rfl⟩
  · exact ⟨rfl, rfl, Or.inl rfl⟩

/-- The scraped-HTML merge does nothing when nutrition is present. -/
theorem scrapeMerge_of_nutrition_nonempty (env : EnrichEnv) (st : EnrichState)
    (sd : ScrapedData) (h : st.nutrition ≠ []) : scrapeMerge env st sd = st := by
  have he : st.nutrition.isEmpty = false := by
    rcases hb : st.nutrition.isEmpty with _ | _
    · rfl
    · exact absurd (List.isEmpty_iff.mp hb) h
  unfold scrapeMerge
  simp [he]

theorem finishEnrich_nutrition (env : EnrichEnv) (st : EnrichState) (sd : ScrapedData) :
    (finishEnrich env st sd).nutrition = (scrapeMerge env st sd).nutrition := rfl

theorem finishEnrich_nutrition_source (env : EnrichEnv) (st : EnrichState)
    (sd : ScrapedData) :
    (finishEnrich env st sd).nutrition_source
      = (scrapeMerge env st sd).nutrition_source := rfl

/-- With nutrition already present, the tail of `enrich_product` keeps it
(and its source) verbatim in the enriched output, and only appends the
supplier-scrape entry to the call log. -/
theorem enrichTail_keeps_nutrition (env : EnrichEnv) (ean name brand : String)
    (st : EnrichState) (scrape : Bool) (h1 : st.nutrition ≠ []) :
    ("fetch_nutrition_by_barcode" ∉ st.calls →
      "fetch_nutrition_by_barcode" ∉ (enrichTail env ean name brand st scrape).2)
    ∧ ((enrichTail env ean name brand st scrape).1.map
        fun e => (e.nutrition, e.nutrition_source))
      = ((enrichTail env ean name brand st scrape).1.map
        fun _ => (st.nutrition, st.nutrition_source)) := by
  unfold enrichTail
  split
  · split
    · refine ⟨fun hc hmem => ?_, rfl⟩
      rcases List.mem_append.mp hmem with hm | hm
      · exact hc hm
      · simp at hm
    · refine ⟨fun hc hmem => ?_, ?_⟩
      · rcases List.mem_append.mp hmem with hm | hm
        · exact hc hm
        · simp at hm
      · simp only [Except.map, finishEnrich_nutrition, finishEnrich_nutrition_source,
          scrapeMerge_of_nutrition_nonempty env st _ h1]
  · refine ⟨fun hc => hc, ?_⟩
    simp only [Except.map, finishEnrich_nutrition, finishEnrich_nutrition_source,
      scrapeMerge_of_nutrition_nonempty env st _ h1]

/-- C1: a product arriving with CSV-tagged nutrition keeps that nutrition
and the `"csv"` source label through enrichment, and the barcode
nutrition API is never consulted — whatever the (possibly successful)
lookup would have returned. -/
theorem C1_csv_nutrition_authoritative (env : EnrichEnv) (p : Product) (scrape : Bool)
    (h1 : p.nutrition ≠ []) (h2 : p.nutrition_source = "csv") :
    "fetch_nutrition_by_barcode" ∉ (enrich_product env p scrape).2
    ∧ ((enrich_product env p scrape).1.map fun e => (e.nutrition, e.nutrition_source))
      = ((enrich_product env p scrape).1.map fun _ => (p.nutrition, "csv")) := by
  unfold enrich_product
  dsimp only
  rw [offStage_of_nutrition_nonempty env _ _ h1]
  obtain ⟨hbn, hbs, hbc⟩ := brandStage_of_nutrition_nonempty env
    (pyOr p.brand p.vendor) (pyOr p.name (pyOr p.title p.productName))
    (pyOr p.ean (pyOr p.barcode p.variantBarcode))
    { product := p, nutrition := p.nutrition,
      nutrition_source := p.nutrition_source, calls := [] } h1
  obtain ⟨htc, htn⟩ := enrichTail_keeps_nutrition env
    (pyOr p.ean (pyOr p.barcode p.variantBarcode))
    (pyOr p.name (pyOr p.title p.productName)) (pyOr p.brand p.vendor)
    (brandStage env (pyOr p.brand p.vendor) (pyOr p.name (pyOr p.title p.productName))
      (pyOr p.ean (pyOr p.barcode p.variantBarcode))
      { product := p, nutrition := p.nutrition,
        nutrition_source := p.nutrition_source, calls := [] }) scrape
    (hbn ▸ h1)
  refine ⟨htc ?_, ?_⟩
  · rcases hbc with hc | hc <;> rw [hc] <;> simp
  · rw [htn, hbn, hbs, h2]

/-- A product that arrived with CSV-tagged nutrition. -/
def pCsvNutrition : Product :=
  { name := "P", ean := "5012345678900",
    nutrition := [("fat", "1")], nutrition_source := "csv" }

/-- C1 witness: against an environment whose barcode lookup WOULD
succeed, the CSV product keeps its nutrition, keeps the `"csv"` label,
and the lookup is never made. -/
theorem C1_csv_nutrition_authoritative_witness :
    "fetch_nutrition_by_barcode" ∉ (enrich_product envOffRich pCsvNutrition false).2
    ∧ ((enrich_product envOffRich pCsvNutrition false).1.map
        fun e => (e.nutrition, e.nutrition_source))
      = ((enrich_product envOffRich pCsvNutrition false).1.map
        fun _ => (pCsvNutrition.nutrition, "csv")) :=
  C1_csv_nutrition_authoritative envOffRich pCsvNutrition false (by decide) rfl

/-! ## C4: list-metafield round trip -/

theorem strMk_data (s : String) : (⟨s.data⟩ : String) = s := by cases s; rfl

theorem jsonEscapeChar_printable {c : Char} (h : 0x20 ≤ c.toNat) :
    jsonEscapeChar c
      = if c = '"' then ['\\', '"']
        else if c = '\\' then ['\\', '\\'] else [c] := by
  have hn : c ≠ '\n' := by rintro rfl; simp at h
  have hr : c ≠ '\x0d' := by rintro rfl; simp at h
  have ht : c ≠ '\t' := by rintro rfl; simp at h
  have hb : c ≠ '\x08' := by rintro rfl; simp at h
  have hf : c ≠ '\x0c' := by rintro rfl; simp at h
  have hlt : ¬ c.toNat < 0x20 := by omega
  unfold jsonEscapeChar
  by_cases h1 : c = '"'
  · simp [h1]
  · by_cases h2 : c = '\\'
    · simp [h1, h2]
    · simp [h1, h2, hn, hr, ht, hb, hf, hlt]

theorem parseJStringBody_cons_other {c : Char} (h1 : c ≠ '"') (h2 : c ≠ '\\')
    (l : List Char) :
    parseJStringBody (c :: l)
      = (parseJStringBody l).map fun p => (c :: p.1, p.2) := by
  rw [parseJStringBody.eq_def]
  split
  · rename_i heq
    cases heq
  · rename_i heq
    injection heq with hc _
    exact absurd hc h1
  · rename_i heq
    injection heq with hc _
    exact absurd hc h2
  · rename_i x xs hne1 hne2 heq
    injection heq with hc hl
    subst hc
    subst hl
    rfl

theorem parseJStringBody_roundtrip :
    ∀ (s rest : List Char), (∀ c ∈ s, 0x20 ≤ c.toNat) →
      parseJStringBody (s.flatMap jsonEscapeChar ++ '"' :: rest) = some (s, rest) := by
  intro s
  induction s with
  | nil => intro rest _; rfl
  | cons c cs ih =>
    intro rest hP
    have hc := hP c (List.mem_cons_self c cs)
    have hcs : ∀ x ∈ cs, 0x20 ≤ x.toNat := fun x hx => hP x (List.mem_cons_of_mem _ hx)
    rw [List.flatMap_cons, jsonEscapeChar_printable hc]
    by_cases h1 : c = '"'
    · subst h1
      rw [if_pos rfl]
      show parseJStringBody ('\\' :: '"' :: (cs.flatMap jsonEscapeChar ++ '"' :: rest))
        = some ('"' :: cs, rest)
      rw [parseJStringBody, ih rest hcs]
      rfl
    · by_cases h2 : c = '\\'
      · subst h2
        rw [if_neg h1, if_pos rfl]
        show parseJStringBody ('\\' :: '\\' :: (cs.flatMap jsonEscapeChar ++ '"' :: rest))
          = some ('\\' :: cs, rest)
        rw [parseJStringBody, ih rest hcs]
        rfl
      · rw [if_neg h1, if_neg h2]
        show parseJStringBody (c :: (cs.flatMap jsonEscapeChar ++ '"' :: rest))
          = some (c :: cs, rest)
        rw [parseJStringBody_cons_other h1 h2, ih rest hcs]
        rfl

theorem parseJString_encode (s rest : List Char) (h : ∀ c ∈ s, 0x20 ≤ c.toNat) :
    parseJString (encodeJsonString s ++ rest) = some (s, rest) := by
  show parseJString ('"' :: (s.flatMap jsonEscapeChar ++ ['"']) ++ rest) = some (s, rest)
  rw [List.cons_append, List.append_assoc]
  show parseJString ('"' :: (s.flatMap jsonEscapeChar ++ ('"' :: rest))) = some (s, rest)
  rw [parseJString]
  exact parseJStringBody_roundtrip s rest h

theorem skipWs_cons_not {a : Char} (h : isJsonWs a = false) (t : List Char) :
    skipWs (a :: t) = a :: t := by
  simp [skipWs, List.dropWhile_cons, h]

theorem skipWs_cons_ws {a : Char} (h : isJsonWs a = true) (t : List Char) :
    skipWs (a :: t) = skipWs t := by
  simp [skipWs, List.dropWhile_cons, h]

theorem joinCommaSpace_enc_cons (y : String) (ys : List String) :
    ∃ t, joinCommaSpace ((y :: ys).map fun s => encodeJsonString s.data)
      = '"' :: t := by
  cases ys with
  | nil => exact ⟨_, rfl⟩
  | cons z zs => exact ⟨_, rfl⟩

theorem parseJsonStrings_join :
    ∀ (items : List String) (fuel : Nat) (rest : List Char),
      items ≠ [] → items.length ≤ fuel →
      (∀ x ∈ items, ∀ c ∈ x.data, 0x20 ≤ c.toNat) →
      parseJsonStrings fuel
        (joinCommaSpace (items.map fun s => encodeJsonString s.data) ++ ']' :: rest)
        = some (items, rest) := by
  intro items
  induction items with
  | nil => intro _ _ h; exact absurd rfl h
  | cons x xs ih =>
    intro fuel rest _ hlen hck
    cases fuel with
    | zero => simp at hlen
    | succ f =>
      have hx : ∀ c ∈ x.data, 0x20 ≤ c.toNat := hck x (List.mem_cons_self x xs)
      cases xs with
      | nil =>
        show parseJsonStrings (f + 1) (encodeJsonString x.data ++ ']' :: rest)
          = some ([x], rest)
        rw [parseJsonStrings, parseJString_encode _ _ hx]
        dsimp only
        rw [skipWs_cons_not (show isJsonWs ']' = false by decide)]
        simp [strMk_data]
      | cons y ys =>
        have hlen' : (y :: ys).length ≤ f := by
          simp only [List.length_cons] at hlen ⊢
          omega
        have hck' : ∀ x' ∈ y :: ys, ∀ c ∈ x'.data, 0x20 ≤ c.toNat :=
          fun x' hx' => hck x' (List.mem_cons_of_mem _ hx')
        obtain ⟨t, ht⟩ := joinCommaSpace_enc_cons y ys
        have hih := ih f rest (by simp) hlen' hck'
        show parseJsonStrings (f + 1)
          ((encodeJsonString x.data
            ++ ',' :: ' ' :: joinCommaSpace ((y :: ys).map fun s => encodeJsonString s.data))
            ++ ']' :: rest) = some (x :: y :: ys, rest)
        rw [List.append_assoc, parseJsonStrings, parseJString_encode _ _ hx]
        dsimp only
        simp only [List.cons_append]
        rw [skipWs_cons_not (show isJsonWs ',' = false by decide)]
        show (match parseJsonStrings f (skipWs (' ' ::
            (joinCommaSpace ((y :: ys).map fun s => encodeJsonString s.data)
              ++ ']' :: rest))) with
          | some (ss, r3) => some ((⟨x.data⟩ : String) :: ss, r3)
          | none => none) = some (x :: y :: ys, rest)
        rw [skipWs_cons_ws (show isJsonWs ' ' = true by decide)]
        rw [ht, List.cons_append,
          skipWs_cons_not (show isJsonWs '"' = false by decide),
          ← List.cons_append, ← ht]
        rw [hih]

theorem length_le_joinCommaSpace (items : List String) :
    items.length
      ≤ (joinCommaSpace (items.map fun s => encodeJsonString s.data)).length := by
  induction items with
  | nil => exact Nat.zero_le _
  | cons x xs ih =>
    cases xs with
    | nil =>
      show 1 ≤ (encodeJsonString x.data).length
      show 1 ≤ ('"' :: (x.data.flatMap jsonEscapeChar ++ ['"'])).length
      exact Nat.succ_le_succ (Nat.zero_le _)
    | cons y ys =>
      show (x :: y :: ys).length
        ≤ (encodeJsonString x.data
            ++ ',' :: ' ' :: joinCommaSpace ((y :: ys).map fun s => encodeJsonString s.data)).length
      simp only [List.length_cons, List.length_append, encodeJsonString] at ih ⊢
      omega

theorem parse_dumpsStrList (items : List String) (hne : items ≠ [])
    (hck : ∀ x ∈ items, ∀ c ∈ x.data, 0x20 ≤ c.toNat) :
    parseJsonStringArray ⟨dumpsStrList items⟩ = some items := by
  obtain ⟨y, ys, rfl⟩ : ∃ y ys, items = y :: ys := by
    cases items with
    | nil => exact absurd rfl hne
    | cons y ys => exact ⟨y, ys, rfl⟩
  unfold parseJsonStringArray dumpsStrList
  obtain ⟨t, ht⟩ := joinCommaSpace_enc_cons y ys
  show (match skipWs ('[' :: (joinCommaSpace ((y :: ys).map fun s => encodeJsonString s.data)
      ++ [']'])) with
    | '[' :: rest =>
      match skipWs rest with
      | ']' :: r2 => if (skipWs r2).isEmpty then some [] else none
      | r =>
        match parseJsonStrings (r.length + 1) r with
        | some (ss, rem) => if (skipWs rem).isEmpty then some ss else none
        | none => none
    | _ => none) = some (y :: ys)
  rw [skipWs_cons_not (show isJsonWs '[' = false by decide), ht, List.cons_append]
  show (match skipWs ('"' :: (t ++ [']'])) with
      | ']' :: r2 => if (skipWs r2).isEmpty = true then some [] else none
      | r =>
        match parseJsonStrings (r.length + 1) r with
        | some (ss, rem) => if (skipWs rem).isEmpty = true then some ss else none
        | none => none) = some (y :: ys)
  rw [skipWs_cons_not (show isJsonWs '"' = false by decide)]
  show (match parseJsonStrings (('"' :: (t ++ [']'])).length + 1) ('"' :: (t ++ [']'])) with
      | some (ss, rem) => if (skipWs rem).isEmpty = true then some ss else none
      | none => none) = some (y :: ys)
  rw [← List.cons_append, ← ht]
  have hfuel : (y :: ys).length
      ≤ (joinCommaSpace ((y :: ys).map fun s => encodeJsonString s.data) ++ [']']).length + 1 := by
    have h0 := length_le_joinCommaSpace (y :: ys)
    simp only [List.length_append, List.length_cons] at h0 ⊢
    omega
  rw [show (joinCommaSpace ((y :: ys).map fun s => encodeJsonString s.data) ++ [']'])
      = joinCommaSpace ((y :: ys).map fun s => encodeJsonString s.data) ++ ']' :: [] from rfl]
  rw [parseJsonStrings_join (y :: ys) _ [] (by simp) (by simpa using hfuel) hck]
  simp [skipWs]

theorem mem_pyStrip {c : Char} {l : List Char} (h : c ∈ pyStrip l) : c ∈ l := by
  unfold pyStrip at h
  exact (List.dropWhile_sublist _).subset
    (List.mem_reverse.mp ((List.dropWhile_sublist _).subset (List.mem_reverse.mp h)))

theorem pyStrip_length_le (l : List Char) : (pyStrip l).length ≤ l.length := by
  unfold pyStrip
  simp only [List.length_reverse]
  exact le_trans (List.dropWhile_sublist _).length_le
    (le_trans (le_of_eq (List.length_reverse _)) (List.dropWhile_sublist _).length_le)

theorem cleanListItem_of (s : String) (h1 : pyStrip s.data ≠ [])
    (h2 : ∀ c ∈ s.data, isListCtl c = false) (h3 : s.data.length ≤ 255) :
    cleanListItem (some s) = some ⟨pyStrip s.data⟩ := by
  show (if (pyStrip s.data).isEmpty = true then none
        else some (⟨((pyStrip s.data).filter fun c => !isListCtl c).take 255⟩ : String))
      = some (⟨pyStrip s.data⟩ : String)
  rw [if_neg (by simpa [List.isEmpty_iff] using h1)]
  have hf : (pyStrip s.data).filter (fun c => !isListCtl c) = pyStrip s.data :=
    List.filter_eq_self.mpr fun c hc => by simp [h2 c (mem_pyStrip hc)]
  rw [hf, List.take_of_length_le (le_trans (pyStrip_length_le _) h3)]

theorem cleaned_of (items : List String)
    (h : ∀ s ∈ items, pyStrip s.data ≠ [] ∧ (∀ c ∈ s.data, isListCtl c = false)
      ∧ s.data.length ≤ 255) :
    (items.map some).filterMap cleanListItem
      = items.map fun s => (⟨pyStrip s.data⟩ : String) := by
  induction items with
  | nil => rfl
  | cons x xs ih =>
    have hx := h x (List.mem_cons_self x xs)
    simp only [List.map_cons, List.filterMap_cons,
      cleanListItem_of x hx.1 hx.2.1 hx.2.2,
      ih fun s hs => h s (List.mem_cons_of_mem _ hs)]

theorem cleaned_blank (items : List String)
    (h : ∀ s ∈ items, pyStrip s.data = []) :
    (items.map some).filterMap cleanListItem = [] := by
  induction items with
  | nil => rfl
  | cons x xs ih =>
    have hx : cleanListItem (some x) = none := by
      show (if (pyStrip x.data).isEmpty = true then none
            else some (⟨((pyStrip x.data).filter fun c => !isListCtl c).take 255⟩ : String))
          = none
      rw [if_pos (by simp [List.isEmpty_iff, h x (List.mem_cons_self x xs)])]
    simp only [List.map_cons, List.filterMap_cons, hx,
      ih fun s hs => h s (List.mem_cons_of_mem _ hs)]

/-- C4 (amended): `format_list_metafield` of the empty list is the empty
string (never `"[]"`, never `null`); for every non-empty list of entries
that are non-blank (non-empty after stripping), control-character-free
and at most 255 characters long, parsing its output as JSON yields back
exactly the list of stripped entries; a list whose entries all strip to
empty also yields the empty string.  (Blank entries are dropped, which is
what the counterexample forces the claim to concede.) -/
theorem C4_list_metafield_roundtrip (items : List String) :
    format_list_metafield [] = ""
    ∧ (items ≠ [] →
        (∀ s ∈ items, pyStrip s.data ≠ [] ∧ (∀ c ∈ s.data, isListCtl c = false)
          ∧ s.data.length ≤ 255) →
        parseJsonStringArray (format_list_metafield (items.map some))
          = some (items.map fun s => (⟨pyStrip s.data⟩ : String)))
    ∧ ((∀ s ∈ items, pyStrip s.data = []) →
        format_list_metafield (items.map some) = "") := by
  refine ⟨rfl, ?_, ?_⟩
  · intro hne hconds
    obtain ⟨y, ys, rfl⟩ : ∃ y ys, items = y :: ys := by
      cases items with
      | nil => exact absurd rfl hne
      | cons y ys => exact ⟨y, ys, rfl⟩
    have hclean := cleaned_of (y :: ys) hconds
    have hck : ∀ x ∈ (y :: ys).map (fun s => (⟨pyStrip s.data⟩ : String)),
        ∀ c ∈ x.data, 0x20 ≤ c.toNat := by
      intro x hx c hc
      obtain ⟨s, hs, rfl⟩ := List.mem_map.mp hx
      have hctl := (hconds s hs).2.1 c (mem_pyStrip hc)
      simp only [isListCtl, Bool.or_eq_false_iff, Bool.and_eq_false_iff,
        decide_eq_false_iff_not, not_le] at hctl
      omega
    have hparse := parse_dumpsStrList _ (by simp) hck
    unfold format_list_metafield
    rw [if_neg (by simp)]
    rw [hclean]
    rw [if_neg (by simp)]
    rw [if_pos (by rw [hparse]; rfl)]
    exact hparse
  · intro hblank
    by_cases hnil : items = []
    · subst hnil; rfl
    · obtain ⟨y, ys, rfl⟩ : ∃ y ys, items = y :: ys := by
        cases items with
        | nil => exact absurd rfl hnil
        | cons y ys => exact ⟨y, ys, rfl⟩
      unfold format_list_metafield
      rw [if_neg (by simp)]
      rw [cleaned_blank (y :: ys) hblank]
      rfl

/-- C4 counterexample: `["Vegan", "  "]` is a list of non-empty,
control-character-free, short strings, but the blank entry is dropped:
the output parses back to `["Vegan"]`, not to the claimed list of
stripped strings `["Vegan", ""]`. -/
theorem C4_blank_entry_counterexample :
    format_list_metafield [some "Vegan", some "  "] = "[\"Vegan\"]"
    ∧ parseJsonStringArray (format_list_metafield [some "Vegan", some "  "])
      = some ["Vegan"]
    ∧ parseJsonStringArray (format_list_metafield [some "Vegan", some "  "])
      ≠ some ["Vegan", ⟨pyStrip "  ".data⟩] := by
  refine ⟨by decide, by decide, by decide⟩

/-- C4 witness: the spec's own example round-trips, and the empty list
gives the empty cell. -/
theorem C4_list_metafield_roundtrip_witness :
    format_list_metafield [] = ""
    ∧ parseJsonStringArray (format_list_metafield 
        (["Vegan", "Gluten Free"].map some))
      = some (["Vegan", "Gluten Free"].map fun s => (⟨pyStrip s.data⟩ : String)) :=
  ⟨(C4_list_metafield_roundtrip []).1,
   (C4_list_metafield_roundtrip ["Vegan", "Gluten Free"]).2.1 (by decide)
     (by decide)⟩
